import Mathlib

/-!
Verification of the EdgeML PyTorch RNN module (`edgeml/pytorch/graph/rnn.py`).

Two embeddings are used:

* a *static* embedding over `Matrix (Fin _) (Fin _) α` for the numerical
  update rules of the cells and for the sequence unroller, with the
  transcendental collaborator functions (`torch.sigmoid`, `torch.tanh`) and
  the configured gate/update nonlinearities abstracted as functions `α → α`;

* a *dynamic* embedding over shape-carrying matrices (`DMat`) of rationals,
  with PyTorch-style broadcasting and shape checking, used for the
  error-handling behaviour (shape mismatches, the Python-level `TypeError`
  and `AttributeError` slips in the source).
-/

/-- Python-level / torch-level errors that the modelled code can raise. -/
inductive PyErr where
  | typeError
  | attributeError
  | shapeMismatch
deriving DecidableEq

/-- A dynamically-shaped 2-D tensor of rationals.  Reads outside the stated
shape return junk (never used by the modelled operations). -/
structure DMat where
  rows : ℕ
  cols : ℕ
  entry : ℕ → ℕ → ℚ

/-- `torch.zeros([r, c])`. -/
def DMat.zeros (r c : ℕ) : DMat := ⟨r, c, fun _ _ => 0⟩

/-- `torch.transpose(A, 0, 1)` on a 2-D tensor. -/
def DMat.transpose (A : DMat) : DMat := ⟨A.cols, A.rows, fun i j => A.entry j i⟩

/-- Elementwise map (used for the activation collaborator functions). -/
def DMat.map (f : ℚ → ℚ) (A : DMat) : DMat :=
  ⟨A.rows, A.cols, fun i j => f (A.entry i j)⟩

/-- `torch.matmul` on 2-D tensors: the inner dimensions must agree, else a
shape error is raised. -/
def dmatmul (A B : DMat) : Except PyErr DMat :=
  if A.cols = B.rows then
    .ok ⟨A.rows, B.cols,
      fun i j => (Finset.range A.cols).sum (fun k => A.entry i k * B.entry k j)⟩
  else .error .shapeMismatch

/-- Broadcast one dimension against another (PyTorch rule: equal, or one of
them is `1`). -/
def bcDim (a b : ℕ) : Option ℕ :=
  if a = b then some a else if a = 1 then some b else if b = 1 then some a else none

/-- PyTorch broadcasting elementwise binary operation on 2-D tensors. -/
def dbinop (f : ℚ → ℚ → ℚ) (A B : DMat) : Except PyErr DMat :=
  match bcDim A.rows B.rows, bcDim A.cols B.cols with
  | some r, some c =>
    .ok ⟨r, c, fun i j =>
      f (A.entry (if A.rows = 1 then 0 else i) (if A.cols = 1 then 0 else j))
        (B.entry (if B.rows = 1 then 0 else i) (if B.cols = 1 then 0 else j))⟩
  | _, _ => .error .shapeMismatch

/-- Broadcasting `+` on tensors. -/
def dadd (A B : DMat) : Except PyErr DMat := dbinop (fun a b => a + b) A B

/-- Broadcasting `*` (elementwise) on tensors. -/
def dmul (A B : DMat) : Except PyErr DMat := dbinop (fun a b => a * b) A B

/-- A Python value used as the `nonlinearity` selector of
`gen_nonlinearity`: a string, a callable, or some other non-callable
object. -/
inductive PySelector where
  | str (s : String)
  | callable (f : ℚ → ℚ)
  | nonCallableObj

/-- `torch.relu(A, 0.0)` as written on line 43 of `rnn.py`: `torch.relu`
accepts a single tensor argument, so passing the extra positional argument
`0.0` raises a `TypeError` at call time. -/
def torchReluTwoArgs (_A : DMat) (_extra : ℚ) : Except PyErr DMat :=
  .error .typeError

/-- `gen_nonlinearity(A, nonlinearity)` from `rnn.py` (lines 31-58).
`tanhF` and `sigmoidF` stand for the external collaborators `torch.tanh`
and `torch.sigmoid`.  In the final `else` branch the source builds the
`ValueError` message as `"..." + + "..."`: the unary `+` applied to a
string raises a `TypeError` before the `ValueError` is ever constructed,
so both an unrecognized string and a non-callable object produce a
`TypeError`. -/
def gen_nonlinearity (tanhF sigmoidF : ℚ → ℚ) (A : DMat) (nl : PySelector) :
    Except PyErr DMat :=
  match nl with
  | .str s =>
    if s = "tanh" then .ok (A.map tanhF)
    else if s = "sigmoid" then .ok (A.map sigmoidF)
    else if s = "relu" then torchReluTwoArgs A 0
    else if s = "quantTanh" then .ok (A.map (fun v => max (min v 1) (-1)))
    else if s = "quantSigm" then .ok (A.map (fun v => max (min ((v + 1) / 2) 1) 0))
    else if s = "quantSigm4" then .ok (A.map (fun v => max (min ((v + 2) / 4) 1) 0))
    else .error .typeError
  | .callable f => .ok (A.map f)
  | .nonCallableObj => .error .typeError

/-- The elementwise relu the spec describes for the `"relu"` selector
("clamped at 0"), written from the spec for comparison with the source. -/
def specRelu (A : DMat) : DMat := A.map (fun v => max v 0)

/-- Python keyword-argument binding: a call succeeds only when every passed
keyword names a parameter of the callee, otherwise Python raises
`TypeError: __init__() got an unexpected keyword argument ...`. -/
def pyBindKwargs (accepted passed : List String) : Except PyErr Unit :=
  if passed.all (fun k => accepted.contains k) then .ok () else .error .typeError

/-- The parameter names of `FastRNNCell.__init__` (rnn.py lines 413-416):
it has no `gate_nonlinearity` parameter. -/
def fastRNNCellInitKeywords : List String :=
  ["input_size", "hidden_size", "update_nonlinearity", "wRank", "uRank",
   "wSparsity", "uSparsity", "alphaInit", "betaInit", "name"]

/-- The keyword arguments `FastRNN.__init__` (rnn.py lines 1143-1151) passes
to `FastRNNCell`, for any values of the wrapper's own arguments.  It always
passes `gate_nonlinearity=...`. -/
def fastRNNWrapperPassedKeywords : List String :=
  ["gate_nonlinearity", "update_nonlinearity", "wRank", "uRank",
   "alphaInit", "betaInit"]

/-- Binding of the `FastRNNCell(...)` call made inside `FastRNN.__init__`,
parameterized by the wrapper's constructor arguments (whose values do not
influence which keywords are passed). -/
def fastRNNWrapperInitBinding (_input_size _hidden_size : ℕ)
    (_gate_nonlinearity _update_nonlinearity : PySelector)
    (_wRank _uRank : Option ℕ) (_alphaInit _betaInit : ℚ)
    (_batch_first : Bool) : Except PyErr Unit :=
  pyBindKwargs fastRNNCellInitKeywords fastRNNWrapperPassedKeywords

/-- Binding of a direct call `FastRNNCell(input_size, hidden_size, ...)`
using keywords the cell's signature actually declares. -/
def fastRNNCellDirectBinding : Except PyErr Unit :=
  pyBindKwargs fastRNNCellInitKeywords
    ["update_nonlinearity", "wRank", "uRank", "wSparsity", "uSparsity",
     "alphaInit", "betaInit"]

/-- A weight class of a cell: either one full-rank matrix or an ordered
pair of low-rank factors (the source keeps `W` or `W1, W2` depending on
whether a rank was supplied). -/
inductive WeightGroup where
  | full (w : DMat)
  | lowRank (w1 w2 : DMat)

/-- The entry of `_num_weight_matrices` for one weight class: `1`, plus `1`
more when a rank was supplied (rnn.py lines 180-190). -/
def weightGroupCount : WeightGroup → ℕ
  | .full _ => 1
  | .lowRank _ _ => 2

/-- The parameter tensors a weight class contributes to `getVars`. -/
def weightGroupVars : WeightGroup → List DMat
  | .full w => [w]
  | .lowRank w1 w2 => [w1, w2]

/-- `FastGRNNCell.getVars` (rnn.py lines 276-290): W factor(s), then U
factor(s), then the two biases, then `zeta` and `nu`. -/
def fastGRNNGetVars (Wg Ug : WeightGroup) (bias_gate bias_update zeta nu : DMat) :
    List DMat :=
  weightGroupVars Wg ++ weightGroupVars Ug ++ [bias_gate, bias_update] ++ [zeta, nu]

/-- Number of nonzero entries of a `DMat` (within its stated shape). -/
def DMat.nnz (A : DMat) : ℕ :=
  (Finset.range A.rows).sum (fun i =>
    (Finset.range A.cols).sum (fun j => if A.entry i j = 0 then 0 else 1))

/-- Modelled from the spec: `utils.countNNZ(tensor, sparsityFlag)` — the
module `edgeml.pytorch.utils` is not under `src/`.  "if `sparsityFlag` is
false, returns the tensor's total element count (it is treated as fully
dense for accounting); otherwise returns the count of non-zero entries." -/
def countNNZ (A : DMat) (isSparse : Bool) : ℕ :=
  if isSparse then A.nnz else A.rows * A.cols

/-- Python truthiness of the float sparsity value the source passes as
`countNNZ`'s flag: any nonzero float is truthy. -/
def pyTruthy (q : ℚ) : Bool := decide (q ≠ 0)

/-- The expression `mats.len()` on rnn.py line 308: `mats` is a Python
`list`, and `list` has no method `len`, so attribute lookup raises
`AttributeError` (the idiom would be `len(mats)`). -/
def listLenMethod (_mats : List DMat) : Except PyErr ℕ :=
  .error .attributeError

/-- `FastGRNNCell.getModelSize` (rnn.py lines 292-311): starts the count at
`2` "For Zeta and Nu", adds `countNNZ` over the W group at `wSparsity` and
the U group at `uSparsity` (the float sparsity is passed where `countNNZ`
expects its boolean flag), then iterates the remaining parameters up to
`mats.len()` — which raises `AttributeError`. -/
def fastGRNNGetModelSize (Wg Ug : WeightGroup) (bias_gate bias_update zeta nu : DMat)
    (wSparsity uSparsity : ℚ) : Except PyErr ℕ :=
  let mats := fastGRNNGetVars Wg Ug bias_gate bias_update zeta nu
  let endW := weightGroupCount Wg
  let t1 := 2 + (Finset.range endW).sum
    (fun i => countNNZ (mats.getD i (DMat.zeros 0 0)) (pyTruthy wSparsity))
  let endU := endW + weightGroupCount Ug
  let t2 := t1 + (Finset.Ico endW endU).sum
    (fun i => countNNZ (mats.getD i (DMat.zeros 0 0)) (pyTruthy uSparsity))
  match listLenMethod mats with
  | .error e => .error e
  | .ok n =>
    .ok (t2 + (Finset.Ico endU n).sum
      (fun i => countNNZ (mats.getD i (DMat.zeros 0 0)) false))

/-- The model size the spec claims for a fully dense cell: the sum of the
element counts of all tensors returned by `getVars`. -/
def sumElementCounts (mats : List DMat) : ℕ :=
  (mats.map (fun m => m.rows * m.cols)).sum

/-- A dynamically-shaped 3-D tensor (the unroller's input). -/
structure DTen3 where
  d0 : ℕ
  d1 : ℕ
  d2 : ℕ
  entry : ℕ → ℕ → ℕ → ℚ

/-- The slice `input[:, i, :]` taken by the batch-first unroller loop. -/
def DTen3.slice1 (x : DTen3) (i : ℕ) : DMat :=
  ⟨x.d0, x.d2, fun b j => x.entry b i j⟩

/-- The slice `input[i, :, :]` taken by the time-first unroller loop. -/
def DTen3.slice0 (x : DTen3) (i : ℕ) : DMat :=
  ⟨x.d1, x.d2, fun b j => x.entry i b j⟩

/-- The `wComp`/`uComp` computation of `FastGRNNCell.forward` (rnn.py
lines 252-263): the operand times the stored matrix's transpose when no
rank was supplied, else times each factor's transpose in turn. -/
def dynCompT (g : WeightGroup) (x : DMat) : Except PyErr DMat :=
  match g with
  | .full W => dmatmul x W.transpose
  | .lowRank W1 W2 => do
    let t ← dmatmul x W1.transpose
    dmatmul t W2.transpose

/-- The `wComp`/`uComp` computation of `FastRNNCell.forward` (rnn.py lines
502-513): no transposes in this cell's layout. -/
def dynComp (g : WeightGroup) (x : DMat) : Except PyErr DMat :=
  match g with
  | .full W => dmatmul x W
  | .lowRank W1 W2 => do
    let t ← dmatmul x W1
    dmatmul t W2

/-- One gate's `wComp_k`/`uComp_k` of the LSTM/GRU/UGRNN cells: the
operand times the per-gate matrix directly when no rank was supplied, else
pushed through the shared first factor and then the per-gate factor
(e.g. rnn.py lines 691-719). -/
def dynCompShared (sh : Option DMat) (Wk : DMat) (x : DMat) : Except PyErr DMat :=
  match sh with
  | none => dmatmul x Wk
  | some W => do
    let t ← dmatmul x W
    dmatmul t Wk

/-- The operand width `dynCompT` requires, which is the constructed
`input_size` (resp. `hidden_size`) of a FastGRNN weight class: the stored
matrix is `[out, in]` (rnn.py lines 193-203), so the dimension is `cols`
of the matrix, or of the first factor. -/
def wgInDimT (g : WeightGroup) : ℕ :=
  match g with
  | .full W => W.cols
  | .lowRank W1 _ => W1.cols

/-- The operand width `dynComp` requires (FastRNN layout `[in, out]`,
rnn.py lines 435-446): `rows` of the matrix, or of the first factor. -/
def wgInDim (g : WeightGroup) : ℕ :=
  match g with
  | .full W => W.rows
  | .lowRank W1 _ => W1.rows

/-- The operand width `dynCompShared` requires (shared-factor layout,
e.g. rnn.py lines 611-641): `rows` of the per-gate matrix, or of the
shared factor. -/
def sharedInDim (sh : Option DMat) (Wk : DMat) : ℕ :=
  match sh with
  | none => Wk.rows
  | some W => W.rows

/-- The two factors of a FastGRNN-layout low-rank pair compose
(`W1 : [r, in]`, `W2 : [out, r]`, rnn.py lines 196-203); trivially true
for a full-rank matrix. -/
def wgFacOkT (g : WeightGroup) : Prop :=
  match g with
  | .full _ => True
  | .lowRank W1 W2 => W1.rows = W2.cols

/-- The two factors of a FastRNN-layout low-rank pair compose
(`W1 : [in, r]`, `W2 : [r, out]`, rnn.py lines 438-446). -/
def wgFacOk (g : WeightGroup) : Prop :=
  match g with
  | .full _ => True
  | .lowRank W1 W2 => W1.cols = W2.rows

/-- A shared factor composes with a per-gate factor (`W : [in, r]`,
`Wk : [r, out]`, e.g. rnn.py lines 621-625). -/
def sharedFacOk (sh : Option DMat) (Wk : DMat) : Prop :=
  match sh with
  | none => True
  | some W => W.cols = Wk.rows

/-- `FastGRNNCell.forward` (rnn.py lines 252-274), both rank branches, in
the dynamic shape-checked model.  `sig` stands for `torch.sigmoid`; `gNL`
and `uNL` are the configured gate/update nonlinearities applied
elementwise (callable case of `gen_nonlinearity`).  Errors are the torch
shape errors the collaborating tensor library raises. -/
def fastGRNNForwardDynW (sig gNL uNL : ℚ → ℚ) (Wg Ug : WeightGroup)
    (bias_gate bias_update zeta nu : DMat)
    (input state : DMat) : Except PyErr DMat := do
  let wComp ← dynCompT Wg input
  let uComp ← dynCompT Ug state
  let pre_comp ← dadd wComp uComp
  let zin ← dadd pre_comp bias_gate
  let z := zin.map gNL
  let cin ← dadd pre_comp bias_update
  let c := cin.map uNL
  let zh ← dmul z state
  let szz ← dmul (zeta.map sig) (z.map (fun v => 1 - v))
  let gate ← dadd szz (nu.map sig)
  let gc ← dmul gate c
  dadd zh gc

/-- `FastRNNCell.forward` (rnn.py lines 502-522), both rank branches:
`c = updateNL(pre_comp + bias)`;
`new_h = sigmoid(beta)*state + sigmoid(alpha)*c`. -/
def fastRNNForwardDynW (sig uNL : ℚ → ℚ) (Wg Ug : WeightGroup)
    (bias_update alpha beta : DMat)
    (input state : DMat) : Except PyErr DMat := do
  let wComp ← dynComp Wg input
  let uComp ← dynComp Ug state
  let pre_comp ← dadd wComp uComp
  let cin ← dadd pre_comp bias_update
  let c := cin.map uNL
  let bh ← dmul (beta.map sig) state
  let ac ← dmul (alpha.map sig) c
  dadd bh ac

/-- `LSTMLRCell.forward` (rnn.py lines 688-737), both rank branches: four
`wComp`s, four `uComp`s, gates `i` (pre1+bias_i), `f` (pre2+bias_f), `o`
(pre4+bias_o), candidate (pre3+bias_c); `new_c = f*c + i*c_`;
`new_h = o * updateNL(new_c)`. -/
def lstmLRForwardDynW (gNL uNL : ℚ → ℚ) (Wsh : Option DMat) (W1 W2 W3 W4 : DMat)
    (Ush : Option DMat) (U1 U2 U3 U4 : DMat) (bias_f bias_i bias_c bias_o : DMat)
    (input : DMat) (hc : DMat × DMat) : Except PyErr (DMat × DMat) := do
  let h := hc.1
  let c := hc.2
  let wComp1 ← dynCompShared Wsh W1 input
  let wComp2 ← dynCompShared Wsh W2 input
  let wComp3 ← dynCompShared Wsh W3 input
  let wComp4 ← dynCompShared Wsh W4 input
  let uComp1 ← dynCompShared Ush U1 h
  let uComp2 ← dynCompShared Ush U2 h
  let uComp3 ← dynCompShared Ush U3 h
  let uComp4 ← dynCompShared Ush U4 h
  let pre_comp1 ← dadd wComp1 uComp1
  let pre_comp2 ← dadd wComp2 uComp2
  let pre_comp3 ← dadd wComp3 uComp3
  let pre_comp4 ← dadd wComp4 uComp4
  let iin ← dadd pre_comp1 bias_i
  let i := iin.map gNL
  let fin_ ← dadd pre_comp2 bias_f
  let f := fin_.map gNL
  let oin ← dadd pre_comp4 bias_o
  let o := oin.map gNL
  let cin ← dadd pre_comp3 bias_c
  let c_ := cin.map uNL
  let fc ← dmul f c
  let ic ← dmul i c_
  let new_c ← dadd fc ic
  let new_h ← dmul o (new_c.map uNL)
  .ok (new_h, new_c)

/-- `GRULRCell.forward` (rnn.py lines 875-915), both rank branches:
`r`, `z`, then `pre_comp3 = wComp3 + matmul(r*state, U3)` (low rank:
through `U` then `U3`); `new_h = z*state + (1-z)*c`. -/
def gruLRForwardDynW (gNL uNL : ℚ → ℚ) (Wsh : Option DMat) (W1 W2 W3 : DMat)
    (Ush : Option DMat) (U1 U2 U3 : DMat) (bias_r bias_gate bias_update : DMat)
    (input state : DMat) : Except PyErr DMat := do
  let wComp1 ← dynCompShared Wsh W1 input
  let wComp2 ← dynCompShared Wsh W2 input
  let wComp3 ← dynCompShared Wsh W3 input
  let uComp1 ← dynCompShared Ush U1 state
  let uComp2 ← dynCompShared Ush U2 state
  let pre_comp1 ← dadd wComp1 uComp1
  let pre_comp2 ← dadd wComp2 uComp2
  let rin ← dadd pre_comp1 bias_r
  let r := rin.map gNL
  let zin ← dadd pre_comp2 bias_gate
  let z := zin.map gNL
  let rs ← dmul r state
  let ru ← dynCompShared Ush U3 rs
  let pre_comp3 ← dadd wComp3 ru
  let cin ← dadd pre_comp3 bias_update
  let c := cin.map uNL
  let zh ← dmul z state
  let om ← dmul (z.map (fun v => 1 - v)) c
  dadd zh om

/-- `UGRNNLRCell.forward` (rnn.py lines 1045-1073), both rank branches. -/
def ugrnnLRForwardDynW (gNL uNL : ℚ → ℚ) (Wsh : Option DMat) (W1 W2 : DMat)
    (Ush : Option DMat) (U1 U2 : DMat) (bias_gate bias_update : DMat)
    (input state : DMat) : Except PyErr DMat := do
  let wComp1 ← dynCompShared Wsh W1 input
  let wComp2 ← dynCompShared Wsh W2 input
  let uComp1 ← dynCompShared Ush U1 state
  let uComp2 ← dynCompShared Ush U2 state
  let pre_comp1 ← dadd wComp1 uComp1
  let pre_comp2 ← dadd wComp2 uComp2
  let zin ← dadd pre_comp1 bias_gate
  let z := zin.map gNL
  let cin ← dadd pre_comp2 bias_update
  let c := cin.map uNL
  let zh ← dmul z state
  let om ← dmul (z.map (fun v => 1 - v)) c
  dadd zh om

/-- The broadcast copy `hiddenStates[:, i, :] = hiddenState`: the assigned
value must broadcast to the `[batch, hidden]` slice. -/
def assignSliceCheck (B H : ℕ) (m : DMat) : Except PyErr Unit :=
  if (m.rows = B ∨ m.rows = 1) ∧ (m.cols = H ∨ m.cols = 1) then .ok ()
  else .error .shapeMismatch

/-- The batch-first single-state loop of `BaseRNN.forward` (rnn.py lines
101-105): for each time index, call the cell, store the slice, thread the
state; the per-step hidden states are collected.  Any error aborts the
whole unroll. -/
def unrollGoDyn (cell : DMat → DMat → Except PyErr DMat) (B H : ℕ)
    (slices : ℕ → DMat) : List ℕ → DMat → Except PyErr (List DMat)
  | [], _ => .ok []
  | i :: rest, h => do
    let h' ← cell (slices i) h
    let _ ← assignSliceCheck B H h'
    let tail ← unrollGoDyn cell B H slices rest h'
    .ok (h' :: tail)

/-- The batch-first dual-state (`cellType == "LSTMLR"`) loop of
`BaseRNN.forward` (rnn.py lines 95-99): call the cell on the slice and the
`(hidden, cell)` pair, store both slices, thread the pair. -/
def unrollGoDynLSTM (cell : DMat → DMat × DMat → Except PyErr (DMat × DMat))
    (B H : ℕ) (slices : ℕ → DMat) :
    List ℕ → DMat × DMat → Except PyErr (List (DMat × DMat))
  | [], _ => .ok []
  | i :: rest, hc => do
    let p ← cell (slices i) hc
    let _ ← assignSliceCheck B H p.1
    let _ ← assignSliceCheck B H p.2
    let tail ← unrollGoDynLSTM cell B H slices rest p
    .ok (p :: tail)

/-- `BaseRNN.forward` (rnn.py lines 78-105), batch-first, single-state
cell, in the dynamic model: synthesize a zero hidden state of shape
`[input.shape[0], output_size]` when none is supplied, then loop over
`range(input.shape[1])`. -/
def baseRNNForwardDynBF (cell : DMat → DMat → Except PyErr DMat) (output_size : ℕ)
    (input : DTen3) (hiddenState : Option DMat) : Except PyErr (List DMat) :=
  let h0 := hiddenState.getD (DMat.zeros input.d0 output_size)
  unrollGoDyn cell input.d0 output_size input.slice1 (List.range input.d1) h0

/-- `BaseRNN.forward` (rnn.py lines 106-131), time-first, single-state
cell: zero hidden state `[input.shape[1], output_size]` when none is
supplied, loop over `range(input.shape[0])` slicing the leading axis; the
buffer slice `hiddenStates[i, :, :]` has `input.shape[1]` rows. -/
def baseRNNForwardDynTF (cell : DMat → DMat → Except PyErr DMat) (output_size : ℕ)
    (input : DTen3) (hiddenState : Option DMat) : Except PyErr (List DMat) :=
  let h0 := hiddenState.getD (DMat.zeros input.d1 output_size)
  unrollGoDyn cell input.d1 output_size input.slice0 (List.range input.d0) h0

/-- `BaseRNN.forward` (rnn.py lines 88-100), batch-first, dual-state
(`LSTMLR`) branch: zero hidden and cell states `[input.shape[0],
output_size]` when not supplied. -/
def baseRNNForwardDynBFLSTM (cell : DMat → DMat × DMat → Except PyErr (DMat × DMat))
    (output_size : ℕ) (input : DTen3) (hiddenState cellState : Option DMat) :
    Except PyErr (List (DMat × DMat)) :=
  let h0 := hiddenState.getD (DMat.zeros input.d0 output_size)
  let c0 := cellState.getD (DMat.zeros input.d0 output_size)
  unrollGoDynLSTM cell input.d0 output_size input.slice1 (List.range input.d1) (h0, c0)

/-- `BaseRNN.forward` (rnn.py lines 114-126), time-first, dual-state
branch: zero hidden and cell states `[input.shape[1], output_size]` when
not supplied, loop over the leading axis. -/
def baseRNNForwardDynTFLSTM (cell : DMat → DMat × DMat → Except PyErr (DMat × DMat))
    (output_size : ℕ) (input : DTen3) (hiddenState cellState : Option DMat) :
    Except PyErr (List (DMat × DMat)) :=
  let h0 := hiddenState.getD (DMat.zeros input.d1 output_size)
  let c0 := cellState.getD (DMat.zeros input.d1 output_size)
  unrollGoDynLSTM cell input.d1 output_size input.slice0 (List.range input.d0) (h0, c0)

/-- Whether an `Except` result is a success. -/
def exceptIsOk {β : Type} : Except PyErr β → Bool
  | .ok _ => true
  | .error _ => false

section StaticCells

variable {α : Type} [CommRing α]
variable {B T I H rW rU : ℕ}

open Matrix

/-- `FastGRNNCell.forward` (rnn.py lines 252-274), `wRank is None` and
`uRank is None` branch.  `W : [hidden, input]` and `U : [hidden, hidden]`
are used transposed, as in the source; `bg`/`bu` are the `[1, hidden]`
biases broadcast over the batch; `zeta`/`nu` are the scalar gate
parameters; `sig` is `torch.sigmoid`. -/
def fastGRNNForwardFullRank (gNL uNL sig : α → α)
    (W : Matrix (Fin H) (Fin I) α) (U : Matrix (Fin H) (Fin H) α)
    (bg bu : Fin H → α) (zeta nu : α)
    (x : Matrix (Fin B) (Fin I) α) (h : Matrix (Fin B) (Fin H) α) :
    Matrix (Fin B) (Fin H) α :=
  let pre := x * Wᵀ + h * Uᵀ
  Matrix.of fun b j =>
    gNL (pre b j + bg j) * h b j
      + (sig zeta * (1 - gNL (pre b j + bg j)) + sig nu) * uNL (pre b j + bu j)

/-- `FastGRNNCell.forward`, low-rank branch: `W1 : [wRank, input]`,
`W2 : [hidden, wRank]`, `U1 : [uRank, hidden]`, `U2 : [hidden, uRank]`,
the input multiplied by each factor's transpose in turn. -/
def fastGRNNForwardLowRank (gNL uNL sig : α → α)
    (W1 : Matrix (Fin rW) (Fin I) α) (W2 : Matrix (Fin H) (Fin rW) α)
    (U1 : Matrix (Fin rU) (Fin H) α) (U2 : Matrix (Fin H) (Fin rU) α)
    (bg bu : Fin H → α) (zeta nu : α)
    (x : Matrix (Fin B) (Fin I) α) (h : Matrix (Fin B) (Fin H) α) :
    Matrix (Fin B) (Fin H) α :=
  let pre := x * W1ᵀ * W2ᵀ + h * U1ᵀ * U2ᵀ
  Matrix.of fun b j =>
    gNL (pre b j + bg j) * h b j
      + (sig zeta * (1 - gNL (pre b j + bg j)) + sig nu) * uNL (pre b j + bu j)

/-- The FastGRNN update rule as the spec states it, per batch row `b`:
`z = gateNL(W·x + U·h + b_g)`, `c = updateNL(W·x + U·h + b_c)`,
`h' = z·h + (sigmoid(zeta)·(1−z) + sigmoid(nu))·c`, with the matrices
applied to the sample's column vectors via `mulVec`. -/
def fastGRNNSpecStep (gNL uNL sig : α → α)
    (W : Matrix (Fin H) (Fin I) α) (U : Matrix (Fin H) (Fin H) α)
    (bg bu : Fin H → α) (zeta nu : α)
    (x : Matrix (Fin B) (Fin I) α) (h : Matrix (Fin B) (Fin H) α) :
    Matrix (Fin B) (Fin H) α :=
  Matrix.of fun b j =>
    let z := gNL (W.mulVec (fun i => x b i) j + U.mulVec (fun k => h b k) j + bg j)
    let c := uNL (W.mulVec (fun i => x b i) j + U.mulVec (fun k => h b k) j + bu j)
    z * h b j + (sig zeta * (1 - z) + sig nu) * c

/-- `FastRNNCell.forward` (rnn.py lines 502-522), full-rank branch:
`W : [input, hidden]`, `U : [hidden, hidden]` (no transposes in this
cell). -/
def fastRNNForwardFullRank (uNL sig : α → α)
    (W : Matrix (Fin I) (Fin H) α) (U : Matrix (Fin H) (Fin H) α)
    (bu : Fin H → α) (alpha beta : α)
    (x : Matrix (Fin B) (Fin I) α) (h : Matrix (Fin B) (Fin H) α) :
    Matrix (Fin B) (Fin H) α :=
  let pre := x * W + h * U
  Matrix.of fun b j =>
    sig beta * h b j + sig alpha * uNL (pre b j + bu j)

/-- `FastRNNCell.forward`, low-rank branch: `W1 : [input, wRank]`,
`W2 : [wRank, hidden]`, `U1 : [hidden, uRank]`, `U2 : [uRank, hidden]`. -/
def fastRNNForwardLowRank (uNL sig : α → α)
    (W1 : Matrix (Fin I) (Fin rW) α) (W2 : Matrix (Fin rW) (Fin H) α)
    (U1 : Matrix (Fin H) (Fin rU) α) (U2 : Matrix (Fin rU) (Fin H) α)
    (bu : Fin H → α) (alpha beta : α)
    (x : Matrix (Fin B) (Fin I) α) (h : Matrix (Fin B) (Fin H) α) :
    Matrix (Fin B) (Fin H) α :=
  let pre := x * W1 * W2 + h * U1 * U2
  Matrix.of fun b j =>
    sig beta * h b j + sig alpha * uNL (pre b j + bu j)

/-- `LSTMLRCell.forward` (rnn.py lines 688-737), `wRank is None` and
`uRank is None` branch: four gates over `Wk : [input, hidden]`,
`Uk : [hidden, hidden]`; note the source pairs `pre_comp1` with `bias_i`
and `pre_comp2` with `bias_f`.  Returns `(new_h, new_c)`. -/
def lstmLRForwardFullRank (gNL uNL : α → α)
    (W1 W2 W3 W4 : Matrix (Fin I) (Fin H) α) (U1 U2 U3 U4 : Matrix (Fin H) (Fin H) α)
    (bf bi bc bo : Fin H → α)
    (x : Matrix (Fin B) (Fin I) α) (h c : Matrix (Fin B) (Fin H) α) :
    Matrix (Fin B) (Fin H) α × Matrix (Fin B) (Fin H) α :=
  let pre1 := x * W1 + h * U1
  let pre2 := x * W2 + h * U2
  let pre3 := x * W3 + h * U3
  let pre4 := x * W4 + h * U4
  let newC : Matrix (Fin B) (Fin H) α := Matrix.of fun b j =>
    gNL (pre2 b j + bf j) * c b j + gNL (pre1 b j + bi j) * uNL (pre3 b j + bc j)
  let newH : Matrix (Fin B) (Fin H) α := Matrix.of fun b j =>
    gNL (pre4 b j + bo j) * uNL (newC b j)
  (newH, newC)

/-- `LSTMLRCell.forward`, low-rank branch: shared first factors
`W : [input, wRank]`, `U : [hidden, uRank]` and per-gate second factors
`Wk : [wRank, hidden]`, `Uk : [uRank, hidden]`. -/
def lstmLRForwardLowRank (gNL uNL : α → α)
    (W : Matrix (Fin I) (Fin rW) α) (W1 W2 W3 W4 : Matrix (Fin rW) (Fin H) α)
    (U : Matrix (Fin H) (Fin rU) α) (U1 U2 U3 U4 : Matrix (Fin rU) (Fin H) α)
    (bf bi bc bo : Fin H → α)
    (x : Matrix (Fin B) (Fin I) α) (h c : Matrix (Fin B) (Fin H) α) :
    Matrix (Fin B) (Fin H) α × Matrix (Fin B) (Fin H) α :=
  let pre1 := x * W * W1 + h * U * U1
  let pre2 := x * W * W2 + h * U * U2
  let pre3 := x * W * W3 + h * U * U3
  let pre4 := x * W * W4 + h * U * U4
  let newC : Matrix (Fin B) (Fin H) α := Matrix.of fun b j =>
    gNL (pre2 b j + bf j) * c b j + gNL (pre1 b j + bi j) * uNL (pre3 b j + bc j)
  let newH : Matrix (Fin B) (Fin H) α := Matrix.of fun b j =>
    gNL (pre4 b j + bo j) * uNL (newC b j)
  (newH, newC)

/-- `GRULRCell.forward` (rnn.py lines 875-915), `wRank is None` and
`uRank is None` branch: `r` and `z` from the first two projections, then
`pre_comp3 = wComp3 + matmul(r * state, U3)` — the reset gate multiplies
the hidden state *before* the third projection. -/
def gruLRForwardFullRank (gNL uNL : α → α)
    (W1 W2 W3 : Matrix (Fin I) (Fin H) α) (U1 U2 U3 : Matrix (Fin H) (Fin H) α)
    (br bg bu : Fin H → α)
    (x : Matrix (Fin B) (Fin I) α) (h : Matrix (Fin B) (Fin H) α) :
    Matrix (Fin B) (Fin H) α :=
  let pre1 := x * W1 + h * U1
  let pre2 := x * W2 + h * U2
  let r : Matrix (Fin B) (Fin H) α := Matrix.of fun b j => gNL (pre1 b j + br j)
  let rh : Matrix (Fin B) (Fin H) α := Matrix.of fun b j => r b j * h b j
  let pre3 := x * W3 + rh * U3
  Matrix.of fun b j =>
    let z := gNL (pre2 b j + bg j)
    z * h b j + (1 - z) * uNL (pre3 b j + bu j)

/-- `GRULRCell.forward`, low-rank branch: `pre_comp3 = wComp3 +
matmul(matmul(r * state, U), U3)` — the reset product is pushed through
the shared factor `U` first, then `U3`. -/
def gruLRForwardLowRank (gNL uNL : α → α)
    (W : Matrix (Fin I) (Fin rW) α) (W1 W2 W3 : Matrix (Fin rW) (Fin H) α)
    (U : Matrix (Fin H) (Fin rU) α) (U1 U2 U3 : Matrix (Fin rU) (Fin H) α)
    (br bg bu : Fin H → α)
    (x : Matrix (Fin B) (Fin I) α) (h : Matrix (Fin B) (Fin H) α) :
    Matrix (Fin B) (Fin H) α :=
  let pre1 := x * W * W1 + h * U * U1
  let pre2 := x * W * W2 + h * U * U2
  let r : Matrix (Fin B) (Fin H) α := Matrix.of fun b j => gNL (pre1 b j + br j)
  let rh : Matrix (Fin B) (Fin H) α := Matrix.of fun b j => r b j * h b j
  let pre3 := x * W * W3 + rh * U * U3
  Matrix.of fun b j =>
    let z := gNL (pre2 b j + bg j)
    z * h b j + (1 - z) * uNL (pre3 b j + bu j)

/-- The GRU-LR update rule as the claim states it, per batch row: `r`, `z`
via `gateNL` of their own projections, candidate
`c = updateNL(W3·x + U3·(r∗h) + b_c)` (the reset gate applied to the
pre-projection hidden state), `h' = z·h + (1−z)·c`. -/
def gruLRSpecStep (gNL uNL : α → α)
    (W1 W2 W3 : Matrix (Fin I) (Fin H) α) (U1 U2 U3 : Matrix (Fin H) (Fin H) α)
    (br bg bu : Fin H → α)
    (x : Matrix (Fin B) (Fin I) α) (h : Matrix (Fin B) (Fin H) α) :
    Matrix (Fin B) (Fin H) α :=
  Matrix.of fun b j =>
    let xrow : Fin I → α := fun i => x b i
    let hrow : Fin H → α := fun k => h b k
    let r : Fin H → α := fun k =>
      gNL (W1ᵀ.mulVec xrow k + U1ᵀ.mulVec hrow k + br k)
    let z := gNL (W2ᵀ.mulVec xrow j + U2ᵀ.mulVec hrow j + bg j)
    let c := uNL (W3ᵀ.mulVec xrow j + U3ᵀ.mulVec (fun k => r k * hrow k) j + bu j)
    z * h b j + (1 - z) * c

/-- `UGRNNLRCell.forward` (rnn.py lines 1045-1073), full-rank branch. -/
def ugrnnLRForwardFullRank (gNL uNL : α → α)
    (W1 W2 : Matrix (Fin I) (Fin H) α) (U1 U2 : Matrix (Fin H) (Fin H) α)
    (bg bu : Fin H → α)
    (x : Matrix (Fin B) (Fin I) α) (h : Matrix (Fin B) (Fin H) α) :
    Matrix (Fin B) (Fin H) α :=
  let pre1 := x * W1 + h * U1
  let pre2 := x * W2 + h * U2
  Matrix.of fun b j =>
    let z := gNL (pre1 b j + bg j)
    z * h b j + (1 - z) * uNL (pre2 b j + bu j)

/-- `UGRNNLRCell.forward`, low-rank branch. -/
def ugrnnLRForwardLowRank (gNL uNL : α → α)
    (W : Matrix (Fin I) (Fin rW) α) (W1 W2 : Matrix (Fin rW) (Fin H) α)
    (U : Matrix (Fin H) (Fin rU) α) (U1 U2 : Matrix (Fin rU) (Fin H) α)
    (bg bu : Fin H → α)
    (x : Matrix (Fin B) (Fin I) α) (h : Matrix (Fin B) (Fin H) α) :
    Matrix (Fin B) (Fin H) α :=
  let pre1 := x * W * W1 + h * U * U1
  let pre2 := x * W * W2 + h * U * U2
  Matrix.of fun b j =>
    let z := gNL (pre1 b j + bg j)
    z * h b j + (1 - z) * uNL (pre2 b j + bu j)

end StaticCells

section StaticUnroller

variable {α : Type} [CommRing α]
variable {B T I H : ℕ}

/-- The slice `input[:, n, :]` of a batch-first `[B, T, I]` tensor (out of
range reads, never taken by the loop, give zeros). -/
def sliceBF (input : Fin B → Fin T → Fin I → α) (n : ℕ) :
    Matrix (Fin B) (Fin I) α :=
  Matrix.of fun b i => if hn : n < T then input b ⟨n, hn⟩ i else 0

/-- The slice `input[n, :, :]` of a time-first `[T, B, I]` tensor. -/
def sliceTF (input : Fin T → Fin B → Fin I → α) (n : ℕ) :
    Matrix (Fin B) (Fin I) α :=
  Matrix.of fun b i => if hn : n < T then input ⟨n, hn⟩ b i else 0

/-- The hidden state held by the unroll loop after `n` iterations. -/
def unrollStates (cell : Matrix (Fin B) (Fin I) α → Matrix (Fin B) (Fin H) α →
    Matrix (Fin B) (Fin H) α) (slices : ℕ → Matrix (Fin B) (Fin I) α)
    (init : Matrix (Fin B) (Fin H) α) : ℕ → Matrix (Fin B) (Fin H) α
  | 0 => init
  | n + 1 => cell (slices n) (unrollStates cell slices init n)

/-- The `(hidden, cell)` state pair held by the dual-state unroll loop
after `n` iterations. -/
def unrollStatesDual (cell : Matrix (Fin B) (Fin I) α →
    Matrix (Fin B) (Fin H) α × Matrix (Fin B) (Fin H) α →
    Matrix (Fin B) (Fin H) α × Matrix (Fin B) (Fin H) α)
    (slices : ℕ → Matrix (Fin B) (Fin I) α)
    (init : Matrix (Fin B) (Fin H) α × Matrix (Fin B) (Fin H) α) :
    ℕ → Matrix (Fin B) (Fin H) α × Matrix (Fin B) (Fin H) α
  | 0 => init
  | n + 1 => cell (slices n) (unrollStatesDual cell slices init n)

/-- `BaseRNN.forward` (rnn.py lines 78-105), batch-first single-state
branch: zero state `[B, H]` synthesized when `hiddenState is None`; the
output buffer entry `[b, t, :]` is the state after step `t`. -/
def baseRNNBatchFirst (cell : Matrix (Fin B) (Fin I) α →
    Matrix (Fin B) (Fin H) α → Matrix (Fin B) (Fin H) α)
    (input : Fin B → Fin T → Fin I → α)
    (hiddenState : Option (Matrix (Fin B) (Fin H) α)) :
    Fin B → Fin T → Fin H → α :=
  fun b t j => unrollStates cell (sliceBF input) (hiddenState.getD 0) (t.val + 1) b j

/-- `BaseRNN.forward` (rnn.py lines 106-131), time-first single-state
branch: the loop runs over the leading axis, the zero state is
`[input.shape[1], H] = [B, H]`, and the buffer entry `[t, b, :]` is the
state after step `t`. -/
def baseRNNTimeFirst (cell : Matrix (Fin B) (Fin I) α →
    Matrix (Fin B) (Fin H) α → Matrix (Fin B) (Fin H) α)
    (input : Fin T → Fin B → Fin I → α)
    (hiddenState : Option (Matrix (Fin B) (Fin H) α)) :
    Fin T → Fin B → Fin H → α :=
  fun t b j => unrollStates cell (sliceTF input) (hiddenState.getD 0) (t.val + 1) b j

/-- `BaseRNN.forward`, batch-first dual-state (`cellType == "LSTMLR"`)
branch: both a hidden-state and a cell-state history are produced. -/
def baseRNNBatchFirstLSTM (cell : Matrix (Fin B) (Fin I) α →
    Matrix (Fin B) (Fin H) α × Matrix (Fin B) (Fin H) α →
    Matrix (Fin B) (Fin H) α × Matrix (Fin B) (Fin H) α)
    (input : Fin B → Fin T → Fin I → α)
    (hiddenState cellState : Option (Matrix (Fin B) (Fin H) α)) :
    (Fin B → Fin T → Fin H → α) × (Fin B → Fin T → Fin H → α) :=
  (fun b t j => (unrollStatesDual cell (sliceBF input)
      (hiddenState.getD 0, cellState.getD 0) (t.val + 1)).1 b j,
   fun b t j => (unrollStatesDual cell (sliceBF input)
      (hiddenState.getD 0, cellState.getD 0) (t.val + 1)).2 b j)

/-- `BaseRNN.forward`, time-first dual-state branch. -/
def baseRNNTimeFirstLSTM (cell : Matrix (Fin B) (Fin I) α →
    Matrix (Fin B) (Fin H) α × Matrix (Fin B) (Fin H) α →
    Matrix (Fin B) (Fin H) α × Matrix (Fin B) (Fin H) α)
    (input : Fin T → Fin B → Fin I → α)
    (hiddenState cellState : Option (Matrix (Fin B) (Fin H) α)) :
    (Fin T → Fin B → Fin H → α) × (Fin T → Fin B → Fin H → α) :=
  (fun t b j => (unrollStatesDual cell (sliceTF input)
      (hiddenState.getD 0, cellState.getD 0) (t.val + 1)).1 b j,
   fun t b j => (unrollStatesDual cell (sliceTF input)
      (hiddenState.getD 0, cellState.getD 0) (t.val + 1)).2 b j)

end StaticUnroller

/-- A concrete single-state cell used to witness the unroller theorem. -/
def addCellQ : Matrix (Fin 1) (Fin 1) ℚ → Matrix (Fin 1) (Fin 1) ℚ →
    Matrix (Fin 1) (Fin 1) ℚ := fun x h => x + h

/-- A concrete `[1, 2, 1]` batch-first input of ones. -/
def onesInputQ : Fin 1 → Fin 2 → Fin 1 → ℚ := fun _ _ _ => 1

/-- A concrete `[1, 1]` all-ones tensor (weight, bias, scalar and
mis-shaped state in the unroller examples). -/
def dOnes11 : DMat := ⟨1, 1, fun _ _ => 1⟩

/-- A concrete `[3, 1]` all-ones tensor (a broadcast-incompatible state
for batch 2). -/
def dOnes31 : DMat := ⟨3, 1, fun _ _ => 1⟩

/-- A concrete `[1, 3]` all-ones tensor (an input row of the wrong
width for `input_size = 1`). -/
def dOnes13 : DMat := ⟨1, 3, fun _ _ => 1⟩

/-- A concrete `[batch=2, time=1, input=1]` all-ones input tensor. -/
def dInput211 : DTen3 := ⟨2, 1, 1, fun _ _ _ => 1⟩

/-- A concrete `[batch=2, time=1, input=3]` input whose last dimension
disagrees with `input_size = 1`. -/
def dInput213 : DTen3 := ⟨2, 1, 3, fun _ _ _ => 1⟩

/-- A concrete time-first `[time=1, batch=2, input=1]` all-ones input. -/
def dInputTF121 : DTen3 := ⟨1, 2, 1, fun _ _ _ => 1⟩

/-! ### Helper lemmas -/

theorem exbind_ok {β γ : Type} (a : β) (f : β → Except PyErr γ) :
    (Except.ok a >>= f) = f a := rfl

theorem exbind_error {β γ : Type} (e : PyErr) (f : β → Except PyErr γ) :
    ((Except.error e : Except PyErr β) >>= f) = .error e := rfl

theorem dmatmul_error_of_ne (A B : DMat) (h : A.cols ≠ B.rows) :
    dmatmul A B = .error .shapeMismatch := by
  unfold dmatmul
  rw [if_neg h]

theorem dmatmul_ok_of_eq (A B : DMat) (h : A.cols = B.rows) :
    dmatmul A B = .ok ⟨A.rows, B.cols,
      fun i j => (Finset.range A.cols).sum (fun k => A.entry i k * B.entry k j)⟩ := by
  unfold dmatmul
  rw [if_pos h]

theorem bcDim_none (a b : ℕ) (hab : a ≠ b) (ha : a ≠ 1) (hb : b ≠ 1) :
    bcDim a b = none := by
  unfold bcDim
  rw [if_neg hab, if_neg ha, if_neg hb]

theorem dadd_error_rows (A B : DMat) (hab : A.rows ≠ B.rows) (ha : A.rows ≠ 1)
    (hb : B.rows ≠ 1) : dadd A B = .error .shapeMismatch := by
  unfold dadd dbinop
  rw [bcDim_none A.rows B.rows hab ha hb]

/-! ### Claim theorems -/

/-- C7: for an unrecognized selector that is not callable,
`gen_nonlinearity` raises an error — but it is a `TypeError` from the
malformed message concatenation `"..." + + "..."`, not the intended
`ValueError`; a callable selector is applied directly. -/
theorem gen_nonlinearity_unrecognized_selector_behaviour :
    (∀ (tanhF sigmoidF : ℚ → ℚ) (A : DMat) (s : String),
      s ≠ "tanh" → s ≠ "sigmoid" → s ≠ "relu" → s ≠ "quantTanh" →
      s ≠ "quantSigm" → s ≠ "quantSigm4" →
      gen_nonlinearity tanhF sigmoidF A (.str s) = .error .typeError) ∧
    (∀ (tanhF sigmoidF : ℚ → ℚ) (A : DMat),
      gen_nonlinearity tanhF sigmoidF A .nonCallableObj = .error .typeError) ∧
    (∀ (tanhF sigmoidF : ℚ → ℚ) (A : DMat) (f : ℚ → ℚ),
      gen_nonlinearity tanhF sigmoidF A (.callable f) = .ok (A.map f)) := by
  refine ⟨?_, fun _ _ _ => rfl, fun _ _ _ _ => rfl⟩
  intro tanhF sigmoidF A s h1 h2 h3 h4 h5 h6
  simp only [gen_nonlinearity]
  rw [if_neg h1, if_neg h2, if_neg h3, if_neg h4, if_neg h5, if_neg h6]

theorem gen_nonlinearity_unrecognized_selector_witness :
    gen_nonlinearity id id (DMat.zeros 1 1) (.str "gelu") = .error .typeError :=
  gen_nonlinearity_unrecognized_selector_behaviour.1 id id (DMat.zeros 1 1) "gelu"
    (by decide) (by decide) (by decide) (by decide) (by decide) (by decide)

/-- C8: the `"relu"` selector does not return the elementwise relu: the
source calls `torch.relu(A, 0.0)` with an extra positional argument, which
raises a `TypeError` for every tensor `A`. -/
theorem gen_nonlinearity_relu_raises_typeError :
    ∀ (tanhF sigmoidF : ℚ → ℚ) (A : DMat),
      gen_nonlinearity tanhF sigmoidF A (.str "relu") = .error .typeError ∧
      gen_nonlinearity tanhF sigmoidF A (.str "relu") ≠ .ok (specRelu A) := by
  intro tanhF sigmoidF A
  refine ⟨rfl, fun hcontra => ?_⟩
  rw [show gen_nonlinearity tanhF sigmoidF A (.str "relu") = .error .typeError from rfl]
    at hcontra
  exact Except.noConfusion hcontra

/-- C10: constructing the `FastRNN` wrapper always raises a `TypeError`,
for every choice of constructor arguments, because `FastRNN.__init__`
passes the keyword `gate_nonlinearity` to `FastRNNCell`, whose `__init__`
has no such parameter; direct construction of `FastRNNCell` with its own
keywords succeeds. -/
theorem fastRNN_wrapper_init_always_typeError :
    (∀ (input_size hidden_size : ℕ) (gate_nl update_nl : PySelector)
      (wRank uRank : Option ℕ) (alphaInit betaInit : ℚ) (batch_first : Bool),
      fastRNNWrapperInitBinding input_size hidden_size gate_nl update_nl
        wRank uRank alphaInit betaInit batch_first = .error .typeError) ∧
    fastRNNCellDirectBinding = .ok () := by
  exact ⟨fun _ _ _ _ _ _ _ _ _ => rfl, rfl⟩

/-- C6: `FastGRNNCell.getModelSize` never returns the dense parameter
count (nor anything else): the loop bound on line 308 evaluates
`mats.len()` on a Python list, which has no `len` method, so every call
raises `AttributeError` before returning. -/
theorem fastGRNN_getModelSize_raises_attributeError :
    ∀ (Wg Ug : WeightGroup) (bias_gate bias_update zeta nu : DMat)
      (wSparsity uSparsity : ℚ),
      fastGRNNGetModelSize Wg Ug bias_gate bias_update zeta nu wSparsity uSparsity =
        .error .attributeError ∧
      ∀ n : ℕ,
        fastGRNNGetModelSize Wg Ug bias_gate bias_update zeta nu wSparsity uSparsity ≠
          .ok n := by
  intro Wg Ug bias_gate bias_update zeta nu wSparsity uSparsity
  refine ⟨rfl, fun n hcontra => ?_⟩
  rw [show fastGRNNGetModelSize Wg Ug bias_gate bias_update zeta nu wSparsity uSparsity
      = .error .attributeError from rfl] at hcontra
  exact Except.noConfusion hcontra

/-- C1: for every cell variant, `forward` of a low-rank cell equals
`forward` of the full-rank cell whose weight matrices are the explicit
matrix products of the corresponding factor pairs (exact arithmetic). -/
theorem lowRank_forward_eq_fullRank_forward_all_cells {α : Type} [CommRing α] :
    (∀ (B I H rW rU : ℕ) (gNL uNL sig : α → α)
      (W1 : Matrix (Fin rW) (Fin I) α) (W2 : Matrix (Fin H) (Fin rW) α)
      (U1 : Matrix (Fin rU) (Fin H) α) (U2 : Matrix (Fin H) (Fin rU) α)
      (bg bu : Fin H → α) (zeta nu : α)
      (x : Matrix (Fin B) (Fin I) α) (h : Matrix (Fin B) (Fin H) α),
      fastGRNNForwardLowRank gNL uNL sig W1 W2 U1 U2 bg bu zeta nu x h =
        fastGRNNForwardFullRank gNL uNL sig (W2 * W1) (U2 * U1) bg bu zeta nu x h) ∧
    (∀ (B I H rW rU : ℕ) (uNL sig : α → α)
      (W1 : Matrix (Fin I) (Fin rW) α) (W2 : Matrix (Fin rW) (Fin H) α)
      (U1 : Matrix (Fin H) (Fin rU) α) (U2 : Matrix (Fin rU) (Fin H) α)
      (bu : Fin H → α) (alpha beta : α)
      (x : Matrix (Fin B) (Fin I) α) (h : Matrix (Fin B) (Fin H) α),
      fastRNNForwardLowRank uNL sig W1 W2 U1 U2 bu alpha beta x h =
        fastRNNForwardFullRank uNL sig (W1 * W2) (U1 * U2) bu alpha beta x h) ∧
    (∀ (B I H rW rU : ℕ) (gNL uNL : α → α)
      (W : Matrix (Fin I) (Fin rW) α) (W1 W2 W3 W4 : Matrix (Fin rW) (Fin H) α)
      (U : Matrix (Fin H) (Fin rU) α) (U1 U2 U3 U4 : Matrix (Fin rU) (Fin H) α)
      (bf bi bc bo : Fin H → α)
      (x : Matrix (Fin B) (Fin I) α) (h c : Matrix (Fin B) (Fin H) α),
      lstmLRForwardLowRank gNL uNL W W1 W2 W3 W4 U U1 U2 U3 U4 bf bi bc bo x h c =
        lstmLRForwardFullRank gNL uNL (W * W1) (W * W2) (W * W3) (W * W4)
          (U * U1) (U * U2) (U * U3) (U * U4) bf bi bc bo x h c) ∧
    (∀ (B I H rW rU : ℕ) (gNL uNL : α → α)
      (W : Matrix (Fin I) (Fin rW) α) (W1 W2 W3 : Matrix (Fin rW) (Fin H) α)
      (U : Matrix (Fin H) (Fin rU) α) (U1 U2 U3 : Matrix (Fin rU) (Fin H) α)
      (br bg bu : Fin H → α)
      (x : Matrix (Fin B) (Fin I) α) (h : Matrix (Fin B) (Fin H) α),
      gruLRForwardLowRank gNL uNL W W1 W2 W3 U U1 U2 U3 br bg bu x h =
        gruLRForwardFullRank gNL uNL (W * W1) (W * W2) (W * W3)
          (U * U1) (U * U2) (U * U3) br bg bu x h) ∧
    (∀ (B I H rW rU : ℕ) (gNL uNL : α → α)
      (W : Matrix (Fin I) (Fin rW) α) (W1 W2 : Matrix (Fin rW) (Fin H) α)
      (U : Matrix (Fin H) (Fin rU) α) (U1 U2 : Matrix (Fin rU) (Fin H) α)
      (bg bu : Fin H → α)
      (x : Matrix (Fin B) (Fin I) α) (h : Matrix (Fin B) (Fin H) α),
      ugrnnLRForwardLowRank gNL uNL W W1 W2 U U1 U2 bg bu x h =
        ugrnnLRForwardFullRank gNL uNL (W * W1) (W * W2) (U * U1) (U * U2) bg bu x h) := by
  refine ⟨?_, ?_, ?_, ?_, ?_⟩ <;> intros <;>
    simp only [fastGRNNForwardLowRank, fastGRNNForwardFullRank,
      fastRNNForwardLowRank, fastRNNForwardFullRank,
      lstmLRForwardLowRank, lstmLRForwardFullRank,
      gruLRForwardLowRank, gruLRForwardFullRank,
      ugrnnLRForwardLowRank, ugrnnLRForwardFullRank,
      Matrix.transpose_mul, Matrix.mul_assoc]

open Matrix in
theorem mul_transpose_row_apply {α : Type} [CommRing α] {B I H : ℕ}
    (x : Matrix (Fin B) (Fin I) α) (W : Matrix (Fin H) (Fin I) α)
    (b : Fin B) (j : Fin H) :
    (x * Wᵀ) b j = W.mulVec (fun i => x b i) j := by
  simp only [Matrix.mul_apply, Matrix.mulVec, Matrix.dotProduct,
    Matrix.transpose_apply]
  exact Finset.sum_congr rfl fun i _ => mul_comm _ _

open Matrix in
theorem mul_row_apply {α : Type} [CommRing α] {B I H : ℕ}
    (x : Matrix (Fin B) (Fin I) α) (W : Matrix (Fin I) (Fin H) α)
    (b : Fin B) (j : Fin H) :
    (x * W) b j = Wᵀ.mulVec (fun i => x b i) j := by
  simp only [Matrix.mul_apply, Matrix.mulVec, Matrix.dotProduct,
    Matrix.transpose_apply]
  exact Finset.sum_congr rfl fun i _ => mul_comm _ _

/-- C2: `FastGRNNCell.forward` computes exactly the claimed update rule
`h' = z·h + (sigmoid(zeta)·(1−z) + sigmoid(nu))·c` with
`z = gateNL(W·x + U·h + b_g)`, `c = updateNL(W·x + U·h + b_c)` sharing one
pre-activation, in both the full-rank and the low-rank parameterization
(with `W = W2·W1`, `U = U2·U1` in the latter). -/
theorem fastGRNN_forward_is_claimed_update_rule {α : Type} [CommRing α] :
    (∀ (B I H : ℕ) (gNL uNL sig : α → α)
      (W : Matrix (Fin H) (Fin I) α) (U : Matrix (Fin H) (Fin H) α)
      (bg bu : Fin H → α) (zeta nu : α)
      (x : Matrix (Fin B) (Fin I) α) (h : Matrix (Fin B) (Fin H) α),
      fastGRNNForwardFullRank gNL uNL sig W U bg bu zeta nu x h =
        fastGRNNSpecStep gNL uNL sig W U bg bu zeta nu x h) ∧
    (∀ (B I H rW rU : ℕ) (gNL uNL sig : α → α)
      (W1 : Matrix (Fin rW) (Fin I) α) (W2 : Matrix (Fin H) (Fin rW) α)
      (U1 : Matrix (Fin rU) (Fin H) α) (U2 : Matrix (Fin H) (Fin rU) α)
      (bg bu : Fin H → α) (zeta nu : α)
      (x : Matrix (Fin B) (Fin I) α) (h : Matrix (Fin B) (Fin H) α),
      fastGRNNForwardLowRank gNL uNL sig W1 W2 U1 U2 bg bu zeta nu x h =
        fastGRNNSpecStep gNL uNL sig (W2 * W1) (U2 * U1) bg bu zeta nu x h) := by
  constructor
  · intro B I H gNL uNL sig W U bg bu zeta nu x h
    ext b j
    simp only [fastGRNNForwardFullRank, fastGRNNSpecStep, Matrix.of_apply,
      Matrix.add_apply, mul_transpose_row_apply]
  · intro B I H rW rU gNL uNL sig W1 W2 U1 U2 bg bu zeta nu x h
    ext b j
    simp only [fastGRNNForwardLowRank, fastGRNNSpecStep, Matrix.of_apply,
      Matrix.mul_assoc, ← Matrix.transpose_mul, Matrix.add_apply,
      mul_transpose_row_apply]

/-- C3: in `GRULRCell.forward` the reset gate multiplies the
pre-projection hidden state: the candidate is
`c = updateNL(W3·x + U3·(r∗h) + b_c)` (in the low-rank case `(r∗h)` is
projected by `U` and then `U3`), and `h' = z·h + (1−z)·c`. -/
theorem gruLR_reset_applied_before_projection {α : Type} [CommRing α] :
    (∀ (B I H : ℕ) (gNL uNL : α → α)
      (W1 W2 W3 : Matrix (Fin I) (Fin H) α) (U1 U2 U3 : Matrix (Fin H) (Fin H) α)
      (br bg bu : Fin H → α)
      (x : Matrix (Fin B) (Fin I) α) (h : Matrix (Fin B) (Fin H) α),
      gruLRForwardFullRank gNL uNL W1 W2 W3 U1 U2 U3 br bg bu x h =
        gruLRSpecStep gNL uNL W1 W2 W3 U1 U2 U3 br bg bu x h) ∧
    (∀ (B I H rW rU : ℕ) (gNL uNL : α → α)
      (W : Matrix (Fin I) (Fin rW) α) (W1 W2 W3 : Matrix (Fin rW) (Fin H) α)
      (U : Matrix (Fin H) (Fin rU) α) (U1 U2 U3 : Matrix (Fin rU) (Fin H) α)
      (br bg bu : Fin H → α)
      (x : Matrix (Fin B) (Fin I) α) (h : Matrix (Fin B) (Fin H) α),
      gruLRForwardLowRank gNL uNL W W1 W2 W3 U U1 U2 U3 br bg bu x h =
        gruLRSpecStep gNL uNL (W * W1) (W * W2) (W * W3)
          (U * U1) (U * U2) (U * U3) br bg bu x h) := by
  constructor
  · intro B I H gNL uNL W1 W2 W3 U1 U2 U3 br bg bu x h
    ext b j
    simp only [gruLRForwardFullRank, gruLRSpecStep, Matrix.of_apply,
      Matrix.add_apply, mul_row_apply]
  · intro B I H rW rU gNL uNL W W1 W2 W3 U U1 U2 U3 br bg bu x h
    ext b j
    simp only [gruLRForwardLowRank, gruLRSpecStep, Matrix.of_apply,
      Matrix.mul_assoc, Matrix.add_apply, mul_row_apply]

/-- C4: the batch-first unroller over a single-state cell synthesizes a
zero initial state when none is supplied, its step-0 output equals
`cell.forward(input[:, 0, :], zeroState)` exactly, and each later step's
output is `cell.forward` of that step's slice and the previous step's
output (the output buffer has shape `[B, T, H]` by construction). -/
theorem baseRNN_batchFirst_unroll_behaviour {α : Type} [CommRing α] :
    ∀ (B T I H : ℕ)
      (cell : Matrix (Fin B) (Fin I) α → Matrix (Fin B) (Fin H) α →
        Matrix (Fin B) (Fin H) α)
      (input : Fin B → Fin T → Fin I → α),
      (baseRNNBatchFirst cell input none =
        baseRNNBatchFirst cell input (some 0)) ∧
      (∀ (hT : 0 < T) (b : Fin B) (j : Fin H),
        baseRNNBatchFirst cell input none b ⟨0, hT⟩ j =
          cell (sliceBF input 0) 0 b j) ∧
      (∀ (t : ℕ) (ht : t + 1 < T) (b : Fin B) (j : Fin H),
        baseRNNBatchFirst cell input none b ⟨t + 1, ht⟩ j =
          cell (sliceBF input (t + 1))
            (Matrix.of fun b' j' =>
              baseRNNBatchFirst cell input none b' ⟨t, Nat.lt_of_succ_lt ht⟩ j')
            b j) := by
  intro B T I H cell input
  refine ⟨rfl, fun hT b j => ?_, fun t ht b j => ?_⟩
  · simp only [baseRNNBatchFirst, unrollStates, Option.getD_none]
  · simp only [baseRNNBatchFirst, unrollStates, Option.getD_none]
    rfl

theorem baseRNN_batchFirst_unroll_behaviour_witness :
    (0 : ℕ) < 2 ∧ (1 : ℕ) < 2 ∧
    (baseRNNBatchFirst addCellQ onesInputQ none 0 ⟨0, Nat.zero_lt_succ 1⟩ 0 =
      addCellQ (sliceBF onesInputQ 0) 0 0 0) ∧
    (baseRNNBatchFirst addCellQ onesInputQ none 0 ⟨0 + 1, Nat.one_lt_two⟩ 0 =
      addCellQ (sliceBF onesInputQ (0 + 1))
        (Matrix.of fun b' j' =>
          baseRNNBatchFirst addCellQ onesInputQ none b'
            ⟨0, Nat.lt_of_succ_lt Nat.one_lt_two⟩ j') 0 0) :=
  ⟨by decide, by decide,
    (baseRNN_batchFirst_unroll_behaviour 1 2 1 1 addCellQ onesInputQ).2.1
      (Nat.zero_lt_succ 1) 0 0,
    (baseRNN_batchFirst_unroll_behaviour 1 2 1 1 addCellQ onesInputQ).2.2 0
      Nat.one_lt_two 0 0⟩

/-- C5: unrolling time-first on the transposed tensor and batch-first on
the original tensor produce identical output values (outputs related by
the same transposition), for single-state cells and for dual-state
(`LSTMLR`) cells, with the initial states equally omitted or equally
supplied. -/
theorem baseRNN_layout_equivalence {α : Type} [CommRing α] :
    ∀ (B T I H : ℕ),
      (∀ (cell : Matrix (Fin B) (Fin I) α → Matrix (Fin B) (Fin H) α →
          Matrix (Fin B) (Fin H) α)
        (input : Fin B → Fin T → Fin I → α)
        (h0 : Option (Matrix (Fin B) (Fin H) α)) (t : Fin T) (b : Fin B) (j : Fin H),
        baseRNNTimeFirst cell (fun t' b' i => input b' t' i) h0 t b j =
          baseRNNBatchFirst cell input h0 b t j) ∧
      (∀ (cell : Matrix (Fin B) (Fin I) α →
          Matrix (Fin B) (Fin H) α × Matrix (Fin B) (Fin H) α →
          Matrix (Fin B) (Fin H) α × Matrix (Fin B) (Fin H) α)
        (input : Fin B → Fin T → Fin I → α)
        (h0 c0 : Option (Matrix (Fin B) (Fin H) α)) (t : Fin T) (b : Fin B) (j : Fin H),
        (baseRNNTimeFirstLSTM cell (fun t' b' i => input b' t' i) h0 c0).1 t b j =
          (baseRNNBatchFirstLSTM cell input h0 c0).1 b t j ∧
        (baseRNNTimeFirstLSTM cell (fun t' b' i => input b' t' i) h0 c0).2 t b j =
          (baseRNNBatchFirstLSTM cell input h0 c0).2 b t j) := by
  intro B T I H
  exact ⟨fun cell input h0 t b j => rfl, fun cell input h0 c0 t b j => ⟨rfl, rfl⟩⟩

theorem dynCompT_error (g : WeightGroup) (x : DMat) (h : x.cols ≠ wgInDimT g) :
    dynCompT g x = .error .shapeMismatch := by
  cases g with
  | full W => exact dmatmul_error_of_ne x W.transpose h
  | lowRank W1 W2 =>
    simp only [dynCompT]
    rw [dmatmul_error_of_ne x W1.transpose h]
    rfl

theorem dynComp_error (g : WeightGroup) (x : DMat) (h : x.cols ≠ wgInDim g) :
    dynComp g x = .error .shapeMismatch := by
  cases g with
  | full W => exact dmatmul_error_of_ne x W h
  | lowRank W1 W2 =>
    simp only [dynComp]
    rw [dmatmul_error_of_ne x W1 h]
    rfl

theorem dynCompShared_error (sh : Option DMat) (Wk : DMat) (x : DMat)
    (h : x.cols ≠ sharedInDim sh Wk) :
    dynCompShared sh Wk x = .error .shapeMismatch := by
  cases sh with
  | none => exact dmatmul_error_of_ne x Wk h
  | some W =>
    simp only [dynCompShared]
    rw [dmatmul_error_of_ne x W h]
    rfl

theorem dynCompT_ok (g : WeightGroup) (x : DMat) (hdim : x.cols = wgInDimT g)
    (hfac : wgFacOkT g) : ∃ M, dynCompT g x = .ok M ∧ M.rows = x.rows := by
  cases g with
  | full W => exact ⟨_, dmatmul_ok_of_eq x W.transpose hdim, rfl⟩
  | lowRank W1 W2 =>
    have h1 := dmatmul_ok_of_eq x W1.transpose hdim
    have h2 := dmatmul_ok_of_eq
      (⟨x.rows, W1.transpose.cols, fun i j =>
        (Finset.range x.cols).sum (fun k => x.entry i k * W1.transpose.entry k j)⟩ : DMat)
      W2.transpose hfac
    simp only [dynCompT, h1, exbind_ok, h2]
    exact ⟨_, rfl, rfl⟩

theorem dynComp_ok (g : WeightGroup) (x : DMat) (hdim : x.cols = wgInDim g)
    (hfac : wgFacOk g) : ∃ M, dynComp g x = .ok M ∧ M.rows = x.rows := by
  cases g with
  | full W => exact ⟨_, dmatmul_ok_of_eq x W hdim, rfl⟩
  | lowRank W1 W2 =>
    have h1 := dmatmul_ok_of_eq x W1 hdim
    have h2 := dmatmul_ok_of_eq
      (⟨x.rows, W1.cols, fun i j =>
        (Finset.range x.cols).sum (fun k => x.entry i k * W1.entry k j)⟩ : DMat)
      W2 hfac
    simp only [dynComp, h1, exbind_ok, h2]
    exact ⟨_, rfl, rfl⟩

theorem dynCompShared_ok (sh : Option DMat) (Wk : DMat) (x : DMat)
    (hdim : x.cols = sharedInDim sh Wk) (hfac : sharedFacOk sh Wk) :
    ∃ M, dynCompShared sh Wk x = .ok M ∧ M.rows = x.rows := by
  cases sh with
  | none => exact ⟨_, dmatmul_ok_of_eq x Wk hdim, rfl⟩
  | some W =>
    have h1 := dmatmul_ok_of_eq x W hdim
    have h2 := dmatmul_ok_of_eq
      (⟨x.rows, W.cols, fun i j =>
        (Finset.range x.cols).sum (fun k => x.entry i k * W.entry k j)⟩ : DMat)
      Wk hfac
    simp only [dynCompShared, h1, exbind_ok, h2]
    exact ⟨_, rfl, rfl⟩

theorem unrollBF_err_of_cell_err (cell : DMat → DMat → Except PyErr DMat)
    (H : ℕ) (input : DTen3) (h0 : Option DMat) (e : PyErr)
    (hc : cell (input.slice1 0) (h0.getD (DMat.zeros input.d0 H)) = .error e)
    (hpos : 0 < input.d1) :
    baseRNNForwardDynBF cell H input h0 = .error e := by
  unfold baseRNNForwardDynBF
  obtain ⟨n, hn⟩ : ∃ n, input.d1 = n + 1 := ⟨input.d1 - 1, by omega⟩
  rw [hn, List.range_succ_eq_map]
  simp only [unrollGoDyn, hc]
  rfl

theorem unrollTF_err_of_cell_err (cell : DMat → DMat → Except PyErr DMat)
    (H : ℕ) (input : DTen3) (h0 : Option DMat) (e : PyErr)
    (hc : cell (input.slice0 0) (h0.getD (DMat.zeros input.d1 H)) = .error e)
    (hpos : 0 < input.d0) :
    baseRNNForwardDynTF cell H input h0 = .error e := by
  unfold baseRNNForwardDynTF
  obtain ⟨n, hn⟩ : ∃ n, input.d0 = n + 1 := ⟨input.d0 - 1, by omega⟩
  rw [hn, List.range_succ_eq_map]
  simp only [unrollGoDyn, hc]
  rfl

theorem unrollBFLSTM_err_of_cell_err
    (cell : DMat → DMat × DMat → Except PyErr (DMat × DMat))
    (H : ℕ) (input : DTen3) (h0 c0 : Option DMat) (e : PyErr)
    (hc : cell (input.slice1 0)
      (h0.getD (DMat.zeros input.d0 H), c0.getD (DMat.zeros input.d0 H)) = .error e)
    (hpos : 0 < input.d1) :
    baseRNNForwardDynBFLSTM cell H input h0 c0 = .error e := by
  unfold baseRNNForwardDynBFLSTM
  obtain ⟨n, hn⟩ : ∃ n, input.d1 = n + 1 := ⟨input.d1 - 1, by omega⟩
  rw [hn, List.range_succ_eq_map]
  simp only [unrollGoDynLSTM, hc]
  rfl

theorem unrollTFLSTM_err_of_cell_err
    (cell : DMat → DMat × DMat → Except PyErr (DMat × DMat))
    (H : ℕ) (input : DTen3) (h0 c0 : Option DMat) (e : PyErr)
    (hc : cell (input.slice0 0)
      (h0.getD (DMat.zeros input.d1 H), c0.getD (DMat.zeros input.d1 H)) = .error e)
    (hpos : 0 < input.d0) :
    baseRNNForwardDynTFLSTM cell H input h0 c0 = .error e := by
  unfold baseRNNForwardDynTFLSTM
  obtain ⟨n, hn⟩ : ∃ n, input.d0 = n + 1 := ⟨input.d0 - 1, by omega⟩
  rw [hn, List.range_succ_eq_map]
  simp only [unrollGoDynLSTM, hc]
  rfl

theorem fastGRNNForwardDynW_width_error (sig gNL uNL : ℚ → ℚ) (Wg Ug : WeightGroup)
    (bg bu zeta nu : DMat) (x st : DMat) (h : x.cols ≠ wgInDimT Wg) :
    fastGRNNForwardDynW sig gNL uNL Wg Ug bg bu zeta nu x st =
      .error .shapeMismatch := by
  simp only [fastGRNNForwardDynW]
  rw [dynCompT_error Wg x h]
  rfl

theorem fastRNNForwardDynW_width_error (sig uNL : ℚ → ℚ) (Wg Ug : WeightGroup)
    (bu alpha beta : DMat) (x st : DMat) (h : x.cols ≠ wgInDim Wg) :
    fastRNNForwardDynW sig uNL Wg Ug bu alpha beta x st = .error .shapeMismatch := by
  simp only [fastRNNForwardDynW]
  rw [dynComp_error Wg x h]
  rfl

theorem lstmLRForwardDynW_width_error (gNL uNL : ℚ → ℚ) (Wsh : Option DMat)
    (W1 W2 W3 W4 : DMat) (Ush : Option DMat) (U1 U2 U3 U4 : DMat)
    (bf bi bc bo : DMat) (x : DMat) (hc : DMat × DMat)
    (h : x.cols ≠ sharedInDim Wsh W1) :
    lstmLRForwardDynW gNL uNL Wsh W1 W2 W3 W4 Ush U1 U2 U3 U4 bf bi bc bo x hc =
      .error .shapeMismatch := by
  simp only [lstmLRForwardDynW]
  rw [dynCompShared_error Wsh W1 x h]
  rfl

theorem gruLRForwardDynW_width_error (gNL uNL : ℚ → ℚ) (Wsh : Option DMat)
    (W1 W2 W3 : DMat) (Ush : Option DMat) (U1 U2 U3 : DMat)
    (br bgate bupd : DMat) (x st : DMat) (h : x.cols ≠ sharedInDim Wsh W1) :
    gruLRForwardDynW gNL uNL Wsh W1 W2 W3 Ush U1 U2 U3 br bgate bupd x st =
      .error .shapeMismatch := by
  simp only [gruLRForwardDynW]
  rw [dynCompShared_error Wsh W1 x h]
  rfl

theorem ugrnnLRForwardDynW_width_error (gNL uNL : ℚ → ℚ) (Wsh : Option DMat)
    (W1 W2 : DMat) (Ush : Option DMat) (U1 U2 : DMat)
    (bgate bupd : DMat) (x st : DMat) (h : x.cols ≠ sharedInDim Wsh W1) :
    ugrnnLRForwardDynW gNL uNL Wsh W1 W2 Ush U1 U2 bgate bupd x st =
      .error .shapeMismatch := by
  simp only [ugrnnLRForwardDynW]
  rw [dynCompShared_error Wsh W1 x h]
  rfl

theorem fastGRNNForwardDynW_state_error (sig gNL uNL : ℚ → ℚ) (Wg Ug : WeightGroup)
    (bg bu zeta nu : DMat) (x st : DMat)
    (hw : x.cols = wgInDimT Wg) (hwf : wgFacOkT Wg)
    (hu : st.cols = wgInDimT Ug) (huf : wgFacOkT Ug)
    (h1 : st.rows ≠ x.rows) (h2 : x.rows ≠ 1) (h3 : st.rows ≠ 1) :
    fastGRNNForwardDynW sig gNL uNL Wg Ug bg bu zeta nu x st =
      .error .shapeMismatch := by
  obtain ⟨M1, hM1, hM1r⟩ := dynCompT_ok Wg x hw hwf
  obtain ⟨M2, hM2, hM2r⟩ := dynCompT_ok Ug st hu huf
  simp only [fastGRNNForwardDynW, hM1, hM2, exbind_ok]
  rw [dadd_error_rows M1 M2 (by rw [hM1r, hM2r]; exact Ne.symm h1)
    (by rw [hM1r]; exact h2) (by rw [hM2r]; exact h3)]
  rfl

theorem fastRNNForwardDynW_state_error (sig uNL : ℚ → ℚ) (Wg Ug : WeightGroup)
    (bu alpha beta : DMat) (x st : DMat)
    (hw : x.cols = wgInDim Wg) (hwf : wgFacOk Wg)
    (hu : st.cols = wgInDim Ug) (huf : wgFacOk Ug)
    (h1 : st.rows ≠ x.rows) (h2 : x.rows ≠ 1) (h3 : st.rows ≠ 1) :
    fastRNNForwardDynW sig uNL Wg Ug bu alpha beta x st = .error .shapeMismatch := by
  obtain ⟨M1, hM1, hM1r⟩ := dynComp_ok Wg x hw hwf
  obtain ⟨M2, hM2, hM2r⟩ := dynComp_ok Ug st hu huf
  simp only [fastRNNForwardDynW, hM1, hM2, exbind_ok]
  rw [dadd_error_rows M1 M2 (by rw [hM1r, hM2r]; exact Ne.symm h1)
    (by rw [hM1r]; exact h2) (by rw [hM2r]; exact h3)]
  rfl

theorem lstmLRForwardDynW_hidden_error (gNL uNL : ℚ → ℚ) (Wsh : Option DMat)
    (W1 W2 W3 W4 : DMat) (Ush : Option DMat) (U1 U2 U3 U4 : DMat)
    (bf bi bc bo : DMat) (x hst cst : DMat)
    (hw1 : x.cols = sharedInDim Wsh W1) (hwf1 : sharedFacOk Wsh W1)
    (hw2 : x.cols = sharedInDim Wsh W2) (hwf2 : sharedFacOk Wsh W2)
    (hw3 : x.cols = sharedInDim Wsh W3) (hwf3 : sharedFacOk Wsh W3)
    (hw4 : x.cols = sharedInDim Wsh W4) (hwf4 : sharedFacOk Wsh W4)
    (hu1 : hst.cols = sharedInDim Ush U1) (huf1 : sharedFacOk Ush U1)
    (hu2 : hst.cols = sharedInDim Ush U2) (huf2 : sharedFacOk Ush U2)
    (hu3 : hst.cols = sharedInDim Ush U3) (huf3 : sharedFacOk Ush U3)
    (hu4 : hst.cols = sharedInDim Ush U4) (huf4 : sharedFacOk Ush U4)
    (h1 : hst.rows ≠ x.rows) (h2 : x.rows ≠ 1) (h3 : hst.rows ≠ 1) :
    lstmLRForwardDynW gNL uNL Wsh W1 W2 W3 W4 Ush U1 U2 U3 U4 bf bi bc bo x
      (hst, cst) = .error .shapeMismatch := by
  obtain ⟨M1, hM1, hM1r⟩ := dynCompShared_ok Wsh W1 x hw1 hwf1
  obtain ⟨M2, hM2, hM2r⟩ := dynCompShared_ok Wsh W2 x hw2 hwf2
  obtain ⟨M3, hM3, hM3r⟩ := dynCompShared_ok Wsh W3 x hw3 hwf3
  obtain ⟨M4, hM4, hM4r⟩ := dynCompShared_ok Wsh W4 x hw4 hwf4
  obtain ⟨N1, hN1, hN1r⟩ := dynCompShared_ok Ush U1 hst hu1 huf1
  obtain ⟨N2, hN2, hN2r⟩ := dynCompShared_ok Ush U2 hst hu2 huf2
  obtain ⟨N3, hN3, hN3r⟩ := dynCompShared_ok Ush U3 hst hu3 huf3
  obtain ⟨N4, hN4, hN4r⟩ := dynCompShared_ok Ush U4 hst hu4 huf4
  simp only [lstmLRForwardDynW, hM1, hM2, hM3, hM4, hN1, hN2, hN3, hN4, exbind_ok]
  rw [dadd_error_rows M1 N1 (by rw [hM1r, hN1r]; exact Ne.symm h1)
    (by rw [hM1r]; exact h2) (by rw [hN1r]; exact h3)]
  rfl

theorem gruLRForwardDynW_state_error (gNL uNL : ℚ → ℚ) (Wsh : Option DMat)
    (W1 W2 W3 : DMat) (Ush : Option DMat) (U1 U2 U3 : DMat)
    (br bgate bupd : DMat) (x st : DMat)
    (hw1 : x.cols = sharedInDim Wsh W1) (hwf1 : sharedFacOk Wsh W1)
    (hw2 : x.cols = sharedInDim Wsh W2) (hwf2 : sharedFacOk Wsh W2)
    (hw3 : x.cols = sharedInDim Wsh W3) (hwf3 : sharedFacOk Wsh W3)
    (hu1 : st.cols = sharedInDim Ush U1) (huf1 : sharedFacOk Ush U1)
    (hu2 : st.cols = sharedInDim Ush U2) (huf2 : sharedFacOk Ush U2)
    (h1 : st.rows ≠ x.rows) (h2 : x.rows ≠ 1) (h3 : st.rows ≠ 1) :
    gruLRForwardDynW gNL uNL Wsh W1 W2 W3 Ush U1 U2 U3 br bgate bupd x st =
      .error .shapeMismatch := by
  obtain ⟨M1, hM1, hM1r⟩ := dynCompShared_ok Wsh W1 x hw1 hwf1
  obtain ⟨M2, hM2, hM2r⟩ := dynCompShared_ok Wsh W2 x hw2 hwf2
  obtain ⟨M3, hM3, hM3r⟩ := dynCompShared_ok Wsh W3 x hw3 hwf3
  obtain ⟨N1, hN1, hN1r⟩ := dynCompShared_ok Ush U1 st hu1 huf1
  obtain ⟨N2, hN2, hN2r⟩ := dynCompShared_ok Ush U2 st hu2 huf2
  simp only [gruLRForwardDynW, hM1, hM2, hM3, hN1, hN2, exbind_ok]
  rw [dadd_error_rows M1 N1 (by rw [hM1r, hN1r]; exact Ne.symm h1)
    (by rw [hM1r]; exact h2) (by rw [hN1r]; exact h3)]
  rfl

theorem ugrnnLRForwardDynW_state_error (gNL uNL : ℚ → ℚ) (Wsh : Option DMat)
    (W1 W2 : DMat) (Ush : Option DMat) (U1 U2 : DMat)
    (bgate bupd : DMat) (x st : DMat)
    (hw1 : x.cols = sharedInDim Wsh W1) (hwf1 : sharedFacOk Wsh W1)
    (hw2 : x.cols = sharedInDim Wsh W2) (hwf2 : sharedFacOk Wsh W2)
    (hu1 : st.cols = sharedInDim Ush U1) (huf1 : sharedFacOk Ush U1)
    (hu2 : st.cols = sharedInDim Ush U2) (huf2 : sharedFacOk Ush U2)
    (h1 : st.rows ≠ x.rows) (h2 : x.rows ≠ 1) (h3 : st.rows ≠ 1) :
    ugrnnLRForwardDynW gNL uNL Wsh W1 W2 Ush U1 U2 bgate bupd x st =
      .error .shapeMismatch := by
  obtain ⟨M1, hM1, hM1r⟩ := dynCompShared_ok Wsh W1 x hw1 hwf1
  obtain ⟨M2, hM2, hM2r⟩ := dynCompShared_ok Wsh W2 x hw2 hwf2
  obtain ⟨N1, hN1, hN1r⟩ := dynCompShared_ok Ush U1 st hu1 huf1
  obtain ⟨N2, hN2, hN2r⟩ := dynCompShared_ok Ush U2 st hu2 huf2
  simp only [ugrnnLRForwardDynW, hM1, hM2, hN1, hN2, exbind_ok]
  rw [dadd_error_rows M1 N1 (by rw [hM1r, hN1r]; exact Ne.symm h1)
    (by rw [hM1r]; exact h2) (by rw [hN1r]; exact h3)]
  rfl

/-- C9 counterexample: a supplied initial hidden state of shape `[1, 1]`
disagrees with the expected `[batch, hidden] = [2, 1]`, yet the unroller
does not fail: the state is silently broadcast by the tensor arithmetic
and an output sequence is returned. -/
theorem baseRNN_misshaped_state_not_rejected :
    (dOnes11.rows, dOnes11.cols) ≠ (dInput211.d0, 1) ∧
    exceptIsOk (baseRNNForwardDynBF
      (fastGRNNForwardDynW id id id (.full dOnes11) (.full dOnes11)
        dOnes11 dOnes11 dOnes11 dOnes11)
      1 dInput211 (some dOnes11)) = true :=
  ⟨by decide, rfl⟩

/-- C9 (amended): for every cell variant — FastGRNN, FastRNN, LSTM-LR,
GRU-LR, UGRNN-LR, each in either rank configuration — and every 3D input
whose last dimension differs from the cell's `input_size`, the unroller
fails with a shape error at the first time step, in both the batch-first
and the time-first layout (dual-state unrollers for the LSTM), and no
output sequence is returned.  Supplied initial states, however, are not
validated against `[batch, hidden_size]`: a hidden state whose row count
differs from both the batch size and `1` (with batch ≠ 1 and matching
column count) fails with a shape error at the first step in either layout,
for every cell variant; a broadcast-incompatible LSTM cell state likewise
fails (shown at a concrete instance); but a mis-shaped state that is
broadcast-compatible, such as `[1, hidden_size]`, is silently broadcast
and an output sequence is returned (shown for a time-first hidden state
and for an LSTM cell state; the counterexample shows the batch-first
hidden state). -/
theorem baseRNN_shape_errors_amended :
    (∀ (sig gNL uNL : ℚ → ℚ) (Wg Ug : WeightGroup) (bg bu zeta nu : DMat)
      (H : ℕ) (input : DTen3) (h0 : Option DMat),
      input.d2 ≠ wgInDimT Wg →
      (0 < input.d1 →
        baseRNNForwardDynBF (fastGRNNForwardDynW sig gNL uNL Wg Ug bg bu zeta nu)
          H input h0 = .error .shapeMismatch) ∧
      (0 < input.d0 →
        baseRNNForwardDynTF (fastGRNNForwardDynW sig gNL uNL Wg Ug bg bu zeta nu)
          H input h0 = .error .shapeMismatch)) ∧
    (∀ (sig uNL : ℚ → ℚ) (Wg Ug : WeightGroup) (bu alpha beta : DMat)
      (H : ℕ) (input : DTen3) (h0 : Option DMat),
      input.d2 ≠ wgInDim Wg →
      (0 < input.d1 →
        baseRNNForwardDynBF (fastRNNForwardDynW sig uNL Wg Ug bu alpha beta)
          H input h0 = .error .shapeMismatch) ∧
      (0 < input.d0 →
        baseRNNForwardDynTF (fastRNNForwardDynW sig uNL Wg Ug bu alpha beta)
          H input h0 = .error .shapeMismatch)) ∧
    (∀ (gNL uNL : ℚ → ℚ) (Wsh : Option DMat) (W1 W2 W3 W4 : DMat)
      (Ush : Option DMat) (U1 U2 U3 U4 : DMat) (bf bi bc bo : DMat)
      (H : ℕ) (input : DTen3) (h0 c0 : Option DMat),
      input.d2 ≠ sharedInDim Wsh W1 →
      (0 < input.d1 →
        baseRNNForwardDynBFLSTM
          (lstmLRForwardDynW gNL uNL Wsh W1 W2 W3 W4 Ush U1 U2 U3 U4 bf bi bc bo)
          H input h0 c0 = .error .shapeMismatch) ∧
      (0 < input.d0 →
        baseRNNForwardDynTFLSTM
          (lstmLRForwardDynW gNL uNL Wsh W1 W2 W3 W4 Ush U1 U2 U3 U4 bf bi bc bo)
          H input h0 c0 = .error .shapeMismatch)) ∧
    (∀ (gNL uNL : ℚ → ℚ) (Wsh : Option DMat) (W1 W2 W3 : DMat)
      (Ush : Option DMat) (U1 U2 U3 : DMat) (br bgate bupd : DMat)
      (H : ℕ) (input : DTen3) (h0 : Option DMat),
      input.d2 ≠ sharedInDim Wsh W1 →
      (0 < input.d1 →
        baseRNNForwardDynBF
          (gruLRForwardDynW gNL uNL Wsh W1 W2 W3 Ush U1 U2 U3 br bgate bupd)
          H input h0 = .error .shapeMismatch) ∧
      (0 < input.d0 →
        baseRNNForwardDynTF
          (gruLRForwardDynW gNL uNL Wsh W1 W2 W3 Ush U1 U2 U3 br bgate bupd)
          H input h0 = .error .shapeMismatch)) ∧
    (∀ (gNL uNL : ℚ → ℚ) (Wsh : Option DMat) (W1 W2 : DMat)
      (Ush : Option DMat) (U1 U2 : DMat) (bgate bupd : DMat)
      (H : ℕ) (input : DTen3) (h0 : Option DMat),
      input.d2 ≠ sharedInDim Wsh W1 →
      (0 < input.d1 →
        baseRNNForwardDynBF
          (ugrnnLRForwardDynW gNL uNL Wsh W1 W2 Ush U1 U2 bgate bupd)
          H input h0 = .error .shapeMismatch) ∧
      (0 < input.d0 →
        baseRNNForwardDynTF
          (ugrnnLRForwardDynW gNL uNL Wsh W1 W2 Ush U1 U2 bgate bupd)
          H input h0 = .error .shapeMismatch)) ∧
    (∀ (sig gNL uNL : ℚ → ℚ) (Wg Ug : WeightGroup) (bg bu zeta nu : DMat)
      (H : ℕ) (input : DTen3) (st : DMat),
      input.d2 = wgInDimT Wg → wgFacOkT Wg →
      st.cols = wgInDimT Ug → wgFacOkT Ug → st.rows ≠ 1 →
      (st.rows ≠ input.d0 → input.d0 ≠ 1 → 0 < input.d1 →
        baseRNNForwardDynBF (fastGRNNForwardDynW sig gNL uNL Wg Ug bg bu zeta nu)
          H input (some st) = .error .shapeMismatch) ∧
      (st.rows ≠ input.d1 → input.d1 ≠ 1 → 0 < input.d0 →
        baseRNNForwardDynTF (fastGRNNForwardDynW sig gNL uNL Wg Ug bg bu zeta nu)
          H input (some st) = .error .shapeMismatch)) ∧
    (∀ (sig uNL : ℚ → ℚ) (Wg Ug : WeightGroup) (bu alpha beta : DMat)
      (H : ℕ) (input : DTen3) (st : DMat),
      input.d2 = wgInDim Wg → wgFacOk Wg →
      st.cols = wgInDim Ug → wgFacOk Ug → st.rows ≠ 1 →
      (st.rows ≠ input.d0 → input.d0 ≠ 1 → 0 < input.d1 →
        baseRNNForwardDynBF (fastRNNForwardDynW sig uNL Wg Ug bu alpha beta)
          H input (some st) = .error .shapeMismatch) ∧
      (st.rows ≠ input.d1 → input.d1 ≠ 1 → 0 < input.d0 →
        baseRNNForwardDynTF (fastRNNForwardDynW sig uNL Wg Ug bu alpha beta)
          H input (some st) = .error .shapeMismatch)) ∧
    (∀ (gNL uNL : ℚ → ℚ) (Wsh : Option DMat) (W1 W2 W3 W4 : DMat)
      (Ush : Option DMat) (U1 U2 U3 U4 : DMat) (bf bi bc bo : DMat)
      (H : ℕ) (input : DTen3) (st : DMat) (c0 : Option DMat),
      input.d2 = sharedInDim Wsh W1 → sharedFacOk Wsh W1 →
      input.d2 = sharedInDim Wsh W2 → sharedFacOk Wsh W2 →
      input.d2 = sharedInDim Wsh W3 → sharedFacOk Wsh W3 →
      input.d2 = sharedInDim Wsh W4 → sharedFacOk Wsh W4 →
      st.cols = sharedInDim Ush U1 → sharedFacOk Ush U1 →
      st.cols = sharedInDim Ush U2 → sharedFacOk Ush U2 →
      st.cols = sharedInDim Ush U3 → sharedFacOk Ush U3 →
      st.cols = sharedInDim Ush U4 → sharedFacOk Ush U4 → st.rows ≠ 1 →
      (st.rows ≠ input.d0 → input.d0 ≠ 1 → 0 < input.d1 →
        baseRNNForwardDynBFLSTM
          (lstmLRForwardDynW gNL uNL Wsh W1 W2 W3 W4 Ush U1 U2 U3 U4 bf bi bc bo)
          H input (some st) c0 = .error .shapeMismatch) ∧
      (st.rows ≠ input.d1 → input.d1 ≠ 1 → 0 < input.d0 →
        baseRNNForwardDynTFLSTM
          (lstmLRForwardDynW gNL uNL Wsh W1 W2 W3 W4 Ush U1 U2 U3 U4 bf bi bc bo)
          H input (some st) c0 = .error .shapeMismatch)) ∧
    (∀ (gNL uNL : ℚ → ℚ) (Wsh : Option DMat) (W1 W2 W3 : DMat)
      (Ush : Option DMat) (U1 U2 U3 : DMat) (br bgate bupd : DMat)
      (H : ℕ) (input : DTen3) (st : DMat),
      input.d2 = sharedInDim Wsh W1 → sharedFacOk Wsh W1 →
      input.d2 = sharedInDim Wsh W2 → sharedFacOk Wsh W2 →
      input.d2 = sharedInDim Wsh W3 → sharedFacOk Wsh W3 →
      st.cols = sharedInDim Ush U1 → sharedFacOk Ush U1 →
      st.cols = sharedInDim Ush U2 → sharedFacOk Ush U2 → st.rows ≠ 1 →
      (st.rows ≠ input.d0 → input.d0 ≠ 1 → 0 < input.d1 →
        baseRNNForwardDynBF
          (gruLRForwardDynW gNL uNL Wsh W1 W2 W3 Ush U1 U2 U3 br bgate bupd)
          H input (some st) = .error .shapeMismatch) ∧
      (st.rows ≠ input.d1 → input.d1 ≠ 1 → 0 < input.d0 →
        baseRNNForwardDynTF
          (gruLRForwardDynW gNL uNL Wsh W1 W2 W3 Ush U1 U2 U3 br bgate bupd)
          H input (some st) = .error .shapeMismatch)) ∧
    (∀ (gNL uNL : ℚ → ℚ) (Wsh : Option DMat) (W1 W2 : DMat)
      (Ush : Option DMat) (U1 U2 : DMat) (bgate bupd : DMat)
      (H : ℕ) (input : DTen3) (st : DMat),
      input.d2 = sharedInDim Wsh W1 → sharedFacOk Wsh W1 →
      input.d2 = sharedInDim Wsh W2 → sharedFacOk Wsh W2 →
      st.cols = sharedInDim Ush U1 → sharedFacOk Ush U1 →
      st.cols = sharedInDim Ush U2 → sharedFacOk Ush U2 → st.rows ≠ 1 →
      (st.rows ≠ input.d0 → input.d0 ≠ 1 → 0 < input.d1 →
        baseRNNForwardDynBF
          (ugrnnLRForwardDynW gNL uNL Wsh W1 W2 Ush U1 U2 bgate bupd)
          H input (some st) = .error .shapeMismatch) ∧
      (st.rows ≠ input.d1 → input.d1 ≠ 1 → 0 < input.d0 →
        baseRNNForwardDynTF
          (ugrnnLRForwardDynW gNL uNL Wsh W1 W2 Ush U1 U2 bgate bupd)
          H input (some st) = .error .shapeMismatch)) ∧
    (baseRNNForwardDynBFLSTM
      (lstmLRForwardDynW id id none dOnes11 dOnes11 dOnes11 dOnes11
        none dOnes11 dOnes11 dOnes11 dOnes11 dOnes11 dOnes11 dOnes11 dOnes11)
      1 dInput211 (some (DMat.zeros 2 1)) (some dOnes31) = .error .shapeMismatch) ∧
    (baseRNNForwardDynTFLSTM
      (lstmLRForwardDynW id id none dOnes11 dOnes11 dOnes11 dOnes11
        none dOnes11 dOnes11 dOnes11 dOnes11 dOnes11 dOnes11 dOnes11 dOnes11)
      1 dInputTF121 (some (DMat.zeros 2 1)) (some dOnes31) = .error .shapeMismatch) ∧
    (exceptIsOk (baseRNNForwardDynBFLSTM
      (lstmLRForwardDynW id id none dOnes11 dOnes11 dOnes11 dOnes11
        none dOnes11 dOnes11 dOnes11 dOnes11 dOnes11 dOnes11 dOnes11 dOnes11)
      1 dInput211 (some (DMat.zeros 2 1)) (some dOnes11)) = true) ∧
    (exceptIsOk (baseRNNForwardDynTF
      (fastGRNNForwardDynW id id id (.full dOnes11) (.full dOnes11)
        dOnes11 dOnes11 dOnes11 dOnes11)
      1 dInputTF121 (some dOnes11)) = true) := by
  refine ⟨?_, ?_, ?_, ?_, ?_, ?_, ?_, ?_, ?_, ?_, rfl, rfl, rfl, rfl⟩
  · intro sig gNL uNL Wg Ug bg bu zeta nu H input h0 hne
    exact ⟨fun hpos => unrollBF_err_of_cell_err _ _ _ _ _
        (fastGRNNForwardDynW_width_error sig gNL uNL Wg Ug bg bu zeta nu _ _ hne) hpos,
      fun hpos => unrollTF_err_of_cell_err _ _ _ _ _
        (fastGRNNForwardDynW_width_error sig gNL uNL Wg Ug bg bu zeta nu _ _ hne) hpos⟩
  · intro sig uNL Wg Ug bu alpha beta H input h0 hne
    exact ⟨fun hpos => unrollBF_err_of_cell_err _ _ _ _ _
        (fastRNNForwardDynW_width_error sig uNL Wg Ug bu alpha beta _ _ hne) hpos,
      fun hpos => unrollTF_err_of_cell_err _ _ _ _ _
        (fastRNNForwardDynW_width_error sig uNL Wg Ug bu alpha beta _ _ hne) hpos⟩
  · intro gNL uNL Wsh W1 W2 W3 W4 Ush U1 U2 U3 U4 bf bi bc bo H input h0 c0 hne
    exact ⟨fun hpos => unrollBFLSTM_err_of_cell_err _ _ _ _ _ _
        (lstmLRForwardDynW_width_error gNL uNL Wsh W1 W2 W3 W4 Ush U1 U2 U3 U4
          bf bi bc bo _ _ hne) hpos,
      fun hpos => unrollTFLSTM_err_of_cell_err _ _ _ _ _ _
        (lstmLRForwardDynW_width_error gNL uNL Wsh W1 W2 W3 W4 Ush U1 U2 U3 U4
          bf bi bc bo _ _ hne) hpos⟩
  · intro gNL uNL Wsh W1 W2 W3 Ush U1 U2 U3 br bgate bupd H input h0 hne
    exact ⟨fun hpos => unrollBF_err_of_cell_err _ _ _ _ _
        (gruLRForwardDynW_width_error gNL uNL Wsh W1 W2 W3 Ush U1 U2 U3
          br bgate bupd _ _ hne) hpos,
      fun hpos => unrollTF_err_of_cell_err _ _ _ _ _
        (gruLRForwardDynW_width_error gNL uNL Wsh W1 W2 W3 Ush U1 U2 U3
          br bgate bupd _ _ hne) hpos⟩
  · intro gNL uNL Wsh W1 W2 Ush U1 U2 bgate bupd H input h0 hne
    exact ⟨fun hpos => unrollBF_err_of_cell_err _ _ _ _ _
        (ugrnnLRForwardDynW_width_error gNL uNL Wsh W1 W2 Ush U1 U2
          bgate bupd _ _ hne) hpos,
      fun hpos => unrollTF_err_of_cell_err _ _ _ _ _
        (ugrnnLRForwardDynW_width_error gNL uNL Wsh W1 W2 Ush U1 U2
          bgate bupd _ _ hne) hpos⟩
  · intro sig gNL uNL Wg Ug bg bu zeta nu H input st hw hwf hu huf h3
    exact ⟨fun hr hd hpos => unrollBF_err_of_cell_err _ _ _ _ _
        (fastGRNNForwardDynW_state_error sig gNL uNL Wg Ug bg bu zeta nu _ _
          hw hwf hu huf hr hd h3) hpos,
      fun hr hd hpos => unrollTF_err_of_cell_err _ _ _ _ _
        (fastGRNNForwardDynW_state_error sig gNL uNL Wg Ug bg bu zeta nu _ _
          hw hwf hu huf hr hd h3) hpos⟩
  · intro sig uNL Wg Ug bu alpha beta H input st hw hwf hu huf h3
    exact ⟨fun hr hd hpos => unrollBF_err_of_cell_err _ _ _ _ _
        (fastRNNForwardDynW_state_error sig uNL Wg Ug bu alpha beta _ _
          hw hwf hu huf hr hd h3) hpos,
      fun hr hd hpos => unrollTF_err_of_cell_err _ _ _ _ _
        (fastRNNForwardDynW_state_error sig uNL Wg Ug bu alpha beta _ _
          hw hwf hu huf hr hd h3) hpos⟩
  · intro gNL uNL Wsh W1 W2 W3 W4 Ush U1 U2 U3 U4 bf bi bc bo H input st c0
      hw1 hwf1 hw2 hwf2 hw3 hwf3 hw4 hwf4 hu1 huf1 hu2 huf2 hu3 huf3 hu4 huf4 h3
    exact ⟨fun hr hd hpos => unrollBFLSTM_err_of_cell_err _ _ _ _ _ _
        (lstmLRForwardDynW_hidden_error gNL uNL Wsh W1 W2 W3 W4 Ush U1 U2 U3 U4
          bf bi bc bo _ _ _ hw1 hwf1 hw2 hwf2 hw3 hwf3 hw4 hwf4
          hu1 huf1 hu2 huf2 hu3 huf3 hu4 huf4 hr hd h3) hpos,
      fun hr hd hpos => unrollTFLSTM_err_of_cell_err _ _ _ _ _ _
        (lstmLRForwardDynW_hidden_error gNL uNL Wsh W1 W2 W3 W4 Ush U1 U2 U3 U4
          bf bi bc bo _ _ _ hw1 hwf1 hw2 hwf2 hw3 hwf3 hw4 hwf4
          hu1 huf1 hu2 huf2 hu3 huf3 hu4 huf4 hr hd h3) hpos⟩
  · intro gNL uNL Wsh W1 W2 W3 Ush U1 U2 U3 br bgate bupd H input st
      hw1 hwf1 hw2 hwf2 hw3 hwf3 hu1 huf1 hu2 huf2 h3
    exact ⟨fun hr hd hpos => unrollBF_err_of_cell_err _ _ _ _ _
        (gruLRForwardDynW_state_error gNL uNL Wsh W1 W2 W3 Ush U1 U2 U3
          br bgate bupd _ _ hw1 hwf1 hw2 hwf2 hw3 hwf3 hu1 huf1 hu2 huf2
          hr hd h3) hpos,
      fun hr hd hpos => unrollTF_err_of_cell_err _ _ _ _ _
        (gruLRForwardDynW_state_error gNL uNL Wsh W1 W2 W3 Ush U1 U2 U3
          br bgate bupd _ _ hw1 hwf1 hw2 hwf2 hw3 hwf3 hu1 huf1 hu2 huf2
          hr hd h3) hpos⟩
  · intro gNL uNL Wsh W1 W2 Ush U1 U2 bgate bupd H input st
      hw1 hwf1 hw2 hwf2 hu1 huf1 hu2 huf2 h3
    exact ⟨fun hr hd hpos => unrollBF_err_of_cell_err _ _ _ _ _
        (ugrnnLRForwardDynW_state_error gNL uNL Wsh W1 W2 Ush U1 U2
          bgate bupd _ _ hw1 hwf1 hw2 hwf2 hu1 huf1 hu2 huf2 hr hd h3) hpos,
      fun hr hd hpos => unrollTF_err_of_cell_err _ _ _ _ _
        (ugrnnLRForwardDynW_state_error gNL uNL Wsh W1 W2 Ush U1 U2
          bgate bupd _ _ hw1 hwf1 hw2 hwf2 hu1 huf1 hu2 huf2 hr hd h3) hpos⟩

theorem baseRNN_shape_errors_amended_witness :
    dInput213.d2 ≠ 1 ∧ dOnes31.rows ≠ dInput211.d0 ∧ dOnes31.rows ≠ 1 ∧
    dInput211.d0 ≠ 1 ∧ dOnes31.rows ≠ dInputTF121.d1 ∧ dInputTF121.d1 ≠ 1 ∧
    (baseRNNForwardDynBF
      (fastGRNNForwardDynW id id id (.full dOnes11) (.full dOnes11)
        dOnes11 dOnes11 dOnes11 dOnes11) 1 dInput213 none = .error .shapeMismatch) ∧
    (baseRNNForwardDynTF
      (fastRNNForwardDynW id id (.lowRank dOnes11 dOnes11) (.full dOnes11)
        dOnes11 dOnes11 dOnes11) 1 dInput213 none = .error .shapeMismatch) ∧
    (baseRNNForwardDynBFLSTM
      (lstmLRForwardDynW id id none dOnes11 dOnes11 dOnes11 dOnes11
        none dOnes11 dOnes11 dOnes11 dOnes11 dOnes11 dOnes11 dOnes11 dOnes11)
      1 dInput213 none none = .error .shapeMismatch) ∧
    (baseRNNForwardDynBF
      (gruLRForwardDynW id id none dOnes11 dOnes11 dOnes11
        none dOnes11 dOnes11 dOnes11 dOnes11 dOnes11 dOnes11)
      1 dInput211 (some dOnes31) = .error .shapeMismatch) ∧
    (baseRNNForwardDynTF
      (ugrnnLRForwardDynW id id none dOnes11 dOnes11 none dOnes11 dOnes11
        dOnes11 dOnes11)
      1 dInputTF121 (some dOnes31) = .error .shapeMismatch) := by
  obtain ⟨c1, c2, c3, c4, c5, c6, c7, c8, c9, c10, c11, c12, c13, c14⟩ :=
    baseRNN_shape_errors_amended
  exact ⟨by decide, by decide, by decide, by decide, by decide, by decide,
    (c1 id id id (.full dOnes11) (.full dOnes11) dOnes11 dOnes11 dOnes11 dOnes11
      1 dInput213 none (by decide)).1 (by decide),
    (c2 id id (.lowRank dOnes11 dOnes11) (.full dOnes11) dOnes11 dOnes11 dOnes11
      1 dInput213 none (by decide)).2 (by decide),
    (c3 id id none dOnes11 dOnes11 dOnes11 dOnes11 none dOnes11 dOnes11 dOnes11
      dOnes11 dOnes11 dOnes11 dOnes11 dOnes11 1 dInput213 none none
      (by decide)).1 (by decide),
    (c9 id id none dOnes11 dOnes11 dOnes11 none dOnes11 dOnes11 dOnes11
      dOnes11 dOnes11 dOnes11 1 dInput211 dOnes31 rfl (by exact trivial) rfl
      (by exact trivial) rfl (by exact trivial) rfl (by exact trivial) rfl
      (by exact trivial) (by decide)).1 (by decide) (by decide) (by decide),
    (c10 id id none dOnes11 dOnes11 none dOnes11 dOnes11 dOnes11 dOnes11
      1 dInputTF121 dOnes31 rfl (by exact trivial) rfl (by exact trivial) rfl
      (by exact trivial) rfl (by exact trivial) (by decide)).2 (by decide)
      (by decide) (by decide)⟩

theorem fastGRNN_getModelSize_raises_attributeError_witness :
    fastGRNNGetModelSize (.full dOnes11) (.full dOnes11) dOnes11 dOnes11 dOnes11
      dOnes11 1 1 = .error .attributeError :=
  (fastGRNN_getModelSize_raises_attributeError (.full dOnes11) (.full dOnes11)
    dOnes11 dOnes11 dOnes11 dOnes11 1 1).1

theorem gen_nonlinearity_relu_raises_typeError_witness :
    gen_nonlinearity id id dOnes11 (.str "relu") = .error .typeError :=
  (gen_nonlinearity_relu_raises_typeError id id dOnes11).1
